import Mathlib

/-!
# Genesis state of cyberd (`app/genesis.go`)

A shallow embedding of the account normaliser (`GenesisAccount.ToAccount`), the
genesis assembler (`CyberdAppGenState`) and the validation pass
(`validateGenesisState`, `validateGenesisStateAccounts`), followed by the
properties established about them.

Conventions of the embedding:

* a Go `error` result is an `Option Error` (`none` is `nil`);
* a Go byte slice is a `List Nat`; `uint64` and `int64` fields are `Nat` and `Int`
  (no arithmetic is performed on them in this file);
* the sub-states of the accounting modules, their validators and the codec belong
  to other packages: their types are collected in `ModuleTypes`, their validators
  in `ModuleValidators`, the codec in `Codec`, and the functions take them as
  parameters;
* a function that writes through a pointer returns the value written next to its
  result.
-/

set_option autoImplicit false

namespace Cyberd

/-! ## Errors -/

/-- A Go `error` value, identified by its message. -/
structure Error where
  msg : String
deriving DecidableEq, Repr

/-- The call `errors.New(msg)`. -/
def errorsNew (msg : String) : Error := ⟨msg⟩

/-- The call `fmt.Errorf(...)`, applied to the already formatted text. -/
def fmtErrorf (formatted : String) : Error := ⟨formatted⟩

/-- The text `needle` occurs in the text `msg`. -/
def Mentions (msg needle : String) : Prop := needle.data <:+: msg.data

instance (msg needle : String) : Decidable (Mentions msg needle) := by
  unfold Mentions; infer_instance

/-! ## Coins and addresses -/

/-- The type `json.RawMessage`: a byte slice. -/
abbrev RawMessage := List Nat

/-- The type `sdk.AccAddress`: a byte slice. -/
abbrev AccAddress := List Nat

/-- The type `sdk.Coin`: a denomination and an arbitrary-precision amount. -/
structure Coin where
  Denom : String
  Amount : Int
deriving DecidableEq, Repr

/-- The type `sdk.Coins`. -/
abbrev Coins := List Coin

/-- Modelled from the spec: the library method `Coins.IsZero`, which is not in this
repository; a balance set is zero when it has no coins or every coin has amount zero. -/
def Coins.IsZero (coins : Coins) : Bool := coins.all (fun c => c.Amount == 0)

/-- Modelled from the spec: the library method `Coins.Sort`, which is not in this
repository; the coins arranged in denomination order. The library sorts the slice in
place (`sort.Sort(coins); return coins`) and returns it, so the receiver holds the same
value afterwards. -/
def Coins.Sort (coins : Coins) : Coins :=
  coins.insertionSort (fun a b => a.Denom ≤ b.Denom)

/-! ## Accounts -/

/-- The type `crypto.PubKey`, as its bytes. -/
abbrev PubKey := List Nat

/-- The type `auth.BaseAccount`. -/
structure BaseAccount where
  Address : AccAddress
  Coins : Coins
  PubKey : Option PubKey
  AccountNumber : Nat
  Sequence : Nat
deriving DecidableEq, Repr

/-- Modelled from the spec: the library constructor
`auth.NewBaseAccount(address, coins, pubKey, accountNumber, sequence)`, which is not in
this repository; the base account with these five fields. -/
def NewBaseAccount (address : AccAddress) (coins : Coins) (pubKey : Option PubKey)
    (accountNumber sequence : Nat) : BaseAccount :=
  { Address := address, Coins := coins, PubKey := pubKey,
    AccountNumber := accountNumber, Sequence := sequence }

/-- The type `auth.BaseVestingAccount`. -/
structure BaseVestingAccount where
  BaseAccount : BaseAccount
  OriginalVesting : Coins
  DelegatedFree : Coins
  DelegatedVesting : Coins
  EndTime : Int
deriving DecidableEq, Repr

/-- Modelled from the spec: the library constructor `auth.NewBaseVestingAccount`, which
is not in this repository; it wraps the base account, the three balance sets and the end
time. -/
def NewBaseVestingAccount (baseAccount : BaseAccount)
    (originalVesting delegatedFree delegatedVesting : Coins) (endTime : Int) :
    BaseVestingAccount :=
  { BaseAccount := baseAccount, OriginalVesting := originalVesting,
    DelegatedFree := delegatedFree, DelegatedVesting := delegatedVesting,
    EndTime := endTime }

/-- The type `auth.ContinuousVestingAccount`. -/
structure ContinuousVestingAccount where
  BaseVestingAccount : BaseVestingAccount
  StartTime : Int
deriving DecidableEq, Repr

/-- The type `auth.DelayedVestingAccount`. -/
structure DelayedVestingAccount where
  BaseVestingAccount : BaseVestingAccount
deriving DecidableEq, Repr

/-- The type `supply.ModuleAccount`. -/
structure ModuleAccount where
  BaseAccount : BaseAccount
  Name : String
  Permissions : List String
deriving DecidableEq, Repr

/-- The interface `auth.Account`, as the sum of the concrete accounts that
`ToAccount` builds. -/
inductive Account where
  | base (acc : BaseAccount)
  | continuousVesting (acc : ContinuousVestingAccount)
  | delayedVesting (acc : DelayedVestingAccount)
  | module (acc : ModuleAccount)
deriving DecidableEq, Repr

/-- Modelled from the spec: the library constructor
`auth.NewContinuousVestingAccountRaw(bva, startTime)`, which is not in this repository;
the continuous vesting account keyed by the start time. -/
def NewContinuousVestingAccountRaw (bva : BaseVestingAccount) (startTime : Int) : Account :=
  .continuousVesting { BaseVestingAccount := bva, StartTime := startTime }

/-- Modelled from the spec: the library constructor `auth.NewDelayedVestingAccountRaw(bva)`,
which is not in this repository; the delayed vesting account. -/
def NewDelayedVestingAccountRaw (bva : BaseVestingAccount) : Account :=
  .delayedVesting { BaseVestingAccount := bva }

/-- The library function `unicode.IsSpace`, which is not in this repository: the
code points with the Unicode white-space property. -/
def unicodeIsSpace (c : Char) : Bool :=
  let r := c.toNat
  (0x09 ≤ r && r ≤ 0x0D) || r == 0x20 || r == 0x85 || r == 0xA0 || r == 0x1680 ||
    (0x2000 ≤ r && r ≤ 0x200A) || r == 0x2028 || r == 0x2029 || r == 0x202F ||
    r == 0x205F || r == 0x3000

/-- The library function `strings.TrimSpace`, which is not in this repository: the text
without its leading and trailing white space. -/
def TrimSpace (s : String) : String :=
  ⟨((s.data.dropWhile unicodeIsSpace).reverse.dropWhile unicodeIsSpace).reverse⟩

/-- The library function `validatePermissions(permissions...)` of the supply module,
which is not in this repository: the error "module permission is empty" at the first
permission that is empty once its white space is trimmed, no error otherwise. -/
def validatePermissions : List String → Option Error
  | [] => none
  | perm :: rest =>
    if TrimSpace perm = "" then some (fmtErrorf "module permission is empty")
    else validatePermissions rest

/-- Modelled from the spec: the library constructor
`supply.NewModuleAccount(ba, name, permissions...)`, which is not in this repository; it
wraps the base account as a module-owned account carrying the name and the declared
permissions. The library first runs `validatePermissions` and panics on its error,
which is `none` here. -/
def NewModuleAccount (ba : BaseAccount) (name : String) (permissions : List String) :
    Option Account :=
  match validatePermissions permissions with
  | some _ => none
  | none => some (.module { BaseAccount := ba, Name := name, Permissions := permissions })

/-- The base account held inside an account of any of the four shapes. -/
def Account.baseAccount : Account → BaseAccount
  | .base acc => acc
  | .continuousVesting acc => acc.BaseVestingAccount.BaseAccount
  | .delayedVesting acc => acc.BaseVestingAccount.BaseAccount
  | .module acc => acc.BaseAccount

/-- The type `GenesisAccount`. -/
structure GenesisAccount where
  Address : AccAddress
  Coins : Coins
  Sequence : Nat
  AccountNumber : Nat
  OriginalVesting : Cyberd.Coins
  DelegatedFree : Cyberd.Coins
  DelegatedVesting : Cyberd.Coins
  StartTime : Int
  EndTime : Int
  ModuleName : String
  ModulePermissions : List String
deriving DecidableEq, Repr

/-- The method `(ga *GenesisAccount) ToAccount()`. The first component is the
descriptor behind the receiver once the call is over (`ga.Coins.Sort()` sorts the
balance slice in place), the second is the returned account, `none` when the call
panics. -/
def GenesisAccount.ToAccount (ga : GenesisAccount) : GenesisAccount × Option Account :=
  let sorted := ga.Coins.Sort
  let ga1 : GenesisAccount := { ga with Coins := sorted }
  let acc := NewBaseAccount ga1.Address sorted none ga1.AccountNumber ga1.Sequence
  -- vesting accounts
  if !ga1.OriginalVesting.IsZero then
    let baseVestingAcc := NewBaseVestingAccount acc ga1.OriginalVesting ga1.DelegatedFree
      ga1.DelegatedVesting ga1.EndTime
    if ga1.StartTime ≠ 0 ∧ ga1.EndTime ≠ 0 then
      (ga1, some (NewContinuousVestingAccountRaw baseVestingAcc ga1.StartTime))
    else if ga1.EndTime ≠ 0 then
      (ga1, some (NewDelayedVestingAccountRaw baseVestingAcc))
    else
      (ga1, none)
  -- module accounts
  else if ga1.ModuleName ≠ "" then
    (ga1, NewModuleAccount acc ga1.ModuleName ga1.ModulePermissions)
  else
    (ga1, some (.base acc))

/-! ## The module state container -/

/-- The genesis sub-state types of the accounting modules, declared in their own
packages. -/
structure ModuleTypes where
  AuthGenesisState : Type
  BankGenesisState : Type
  DistrGenesisState : Type
  MintGenesisState : Type
  StakingGenesisState : Type
  StakingPool : Type
  SupplyGenesisState : Type
  SlashingGenesisState : Type
  GovGenesisState : Type
  BandwidthGenesisState : Type
  RankGenesisState : Type
  CrisisGenesisState : Type
  WasmGenesisState : Type

/-- The type `GenesisState`. -/
structure GenesisState (M : ModuleTypes) where
  Accounts : List GenesisAccount
  AuthData : M.AuthGenesisState
  BankData : M.BankGenesisState
  DistrData : M.DistrGenesisState
  MintData : M.MintGenesisState
  StakingData : M.StakingGenesisState
  Pool : M.StakingPool
  SupplyData : M.SupplyGenesisState
  SlashingData : M.SlashingGenesisState
  GovData : M.GovGenesisState
  BandwidthData : M.BandwidthGenesisState
  RankData : M.RankGenesisState
  GenTxs : List RawMessage
  Crisis : M.CrisisGenesisState
  Wasm : M.WasmGenesisState

/-- The method `GetAddresses`. -/
def GenesisState.GetAddresses {M : ModuleTypes} (gs : GenesisState M) : List AccAddress :=
  gs.Accounts.map (fun acc => acc.Address)

/-! ## Transactions and the codec -/

/-- The interface `sdk.Msg`: a `staking.MsgCreateValidator`, or a message of any other
dynamic type (named by `typ`). -/
inductive Msg where
  | MsgCreateValidator (body : RawMessage)
  | other (typ : String) (body : RawMessage)
deriving DecidableEq, Repr

/-- The type `auth.StdTx`, with the fields this file reads. -/
structure StdTx where
  Msgs : List Msg
  Memo : String
deriving DecidableEq, Repr

/-- The method `StdTx.GetMsgs`. -/
def StdTx.GetMsgs (tx : StdTx) : List Msg := tx.Msgs

/-- The type `tmtypes.GenesisDoc`, with the fields this file reads. -/
structure GenesisDoc where
  ChainID : String
  AppState : RawMessage
deriving DecidableEq, Repr

/-- The codec `cdc`: `UnmarshalJSON` at the two types it is called at. Each call
gives the value left behind the target pointer (which starts as the zero value) and
the returned error. -/
structure Codec (M : ModuleTypes) where
  UnmarshalGenesisState : RawMessage → GenesisState M × Option Error
  UnmarshalStdTx : RawMessage → StdTx × Option Error

/-- The loop `for i, genTx := range appGenTxs` of `CyberdAppGenState`, entered at
index `i` with the transactions that remain: the error of the first return taken
inside the loop, `none` when the loop runs to its end. -/
def CyberdAppGenState.loop {M : ModuleTypes} (cdc : Codec M) :
    Nat → List RawMessage → Option Error
  | _, [] => none
  | i, genTx :: rest =>
    match cdc.UnmarshalStdTx genTx with
    | (_, some err) => some err
    | (tx, none) =>
      let msgs := tx.GetMsgs
      if msgs.length ≠ 1 then
        some (errorsNew "must provide genesis StdTx with exactly 1 CreateValidator message")
      else
        match msgs.head? with
        | some (.MsgCreateValidator _) => CyberdAppGenState.loop cdc (i + 1) rest
        | _ =>
          some (fmtErrorf
            ("genesis transaction " ++ toString i ++ " does not contain a MsgCreateValidator"))

/-- The function `CyberdAppGenState(cdc, genDoc, appGenTxs)`: the returned container
and error. -/
def CyberdAppGenState {M : ModuleTypes} (cdc : Codec M) (genDoc : GenesisDoc)
    (appGenTxs : List RawMessage) : GenesisState M × Option Error :=
  match cdc.UnmarshalGenesisState genDoc.AppState with
  | (genesisState, some err) => (genesisState, some err)
  | (genesisState, none) =>
    -- if there are no gen txs to be processed, return the default empty state
    if appGenTxs.length = 0 then
      (genesisState, some (errorsNew "there must be at least one genesis tx"))
    else
      match CyberdAppGenState.loop cdc 0 appGenTxs with
      | some err => (genesisState, some err)
      | none => ({ genesisState with GenTxs := appGenTxs }, none)

/-! ## Validation -/

/-- The loop of `validateGenesisStateAccounts`, entered with the accounts that remain
and the keys of `addrMap`. A key `string(acc.Address)` is the address's bytes, so the
keys are kept as addresses; `addrString` is `AccAddress.String`. -/
def validateGenesisStateAccounts.loop (addrString : AccAddress → String) :
    List GenesisAccount → List AccAddress → Option Error
  | [], _ => none
  | acc :: rest, addrMap =>
    if acc.Address ∈ addrMap then
      some (fmtErrorf ("duplicate account in genesis state: Address " ++ addrString acc.Address))
    else
      validateGenesisStateAccounts.loop addrString rest (acc.Address :: addrMap)

/-- The function `validateGenesisStateAccounts(accs)`. -/
def validateGenesisStateAccounts (addrString : AccAddress → String)
    (accs : List GenesisAccount) : Option Error :=
  validateGenesisStateAccounts.loop addrString accs []

/-- The `ValidateGenesis` functions of the accounting modules that
`validateGenesisState` calls, and `AccAddress.String`. -/
structure ModuleValidators (M : ModuleTypes) where
  addrString : AccAddress → String
  staking : M.StakingGenesisState → Option Error
  mint : M.MintGenesisState → Option Error
  distr : M.DistrGenesisState → Option Error
  gov : M.GovGenesisState → Option Error
  bank : M.BankGenesisState → Option Error
  supply : M.SupplyGenesisState → Option Error
  bandwidth : M.BandwidthGenesisState → Option Error
  rank : M.RankGenesisState → Option Error
  wasm : M.WasmGenesisState → Option Error

/-- The function `validateGenesisState(genesisState)`, call by call. -/
def validateGenesisState {M : ModuleTypes} (V : ModuleValidators M)
    (genesisState : GenesisState M) : Option Error :=
  match validateGenesisStateAccounts V.addrString genesisState.Accounts with
  | some err => some err
  | none =>
  match V.staking genesisState.StakingData with
  | some err => some err
  | none =>
  match V.mint genesisState.MintData with
  | some err => some err
  | none =>
  match V.distr genesisState.DistrData with
  | some err => some err
  | none =>
  match V.gov genesisState.GovData with
  | some err => some err
  | none =>
  match V.bank genesisState.BankData with
  | some err => some err
  | none =>
  match V.mint genesisState.MintData with
  | some err => some err
  | none =>
  match V.supply genesisState.SupplyData with
  | some err => some err
  | none =>
  match V.bandwidth genesisState.BandwidthData with
  | some err => some err
  | none =>
  match V.rank genesisState.RankData with
  | some err => some err
  | none =>
  match V.wasm genesisState.Wasm with
  | some err => some err
  | none => V.staking genesisState.StakingData

/-! ## The default state -/

/-- The type `sdk.Dec`, a decimal number, as a rational. -/
abbrev Dec := ℚ

/-- Modelled from the spec: the library function `sdk.NewDecWithPrec(i, prec)`, which is
not in this repository; the decimal `i / 10^prec`. -/
def NewDecWithPrec (i : Int) (prec : Nat) : Dec := (i : ℚ) / (10 : ℚ) ^ prec

/-- Modelled from the spec: the library function `sdk.NewDec(i)`, which is not in this
repository; the decimal of an integer. -/
def NewDec (i : Int) : Dec := (i : ℚ)

/-- Modelled from the spec: the library method `Dec.Quo`, which is not in this
repository; the quotient of two decimals. -/
def Dec.Quo (a b : Dec) : Dec := a / b

/-- The type `time.Duration`: a number of nanoseconds. -/
abbrev Duration := Int

/-- The constant `time.Second`. -/
def Second : Duration := 1000000000

/-- The constant `defaultUnbondingTime`. -/
def defaultUnbondingTime : Duration := 60 * 60 * 24 * 3 * 7 * Second

/-- The type `auth.Params`, with the fields this file sets. -/
structure AuthParams where
  MaxMemoCharacters : Nat
  TxSigLimit : Nat
deriving DecidableEq, Repr

/-- The type `auth.GenesisState`, with the fields this file sets. -/
structure AuthGenesisState where
  Params : AuthParams
deriving DecidableEq, Repr

/-- The type `bank.GenesisState`. -/
structure BankGenesisState where
  SendEnabled : Bool
deriving DecidableEq, Repr

/-- The type `mint.Minter`. -/
structure Minter where
  Inflation : Dec
  AnnualProvisions : Dec
deriving DecidableEq, Repr

/-- The type `mint.Params`. -/
structure MintParams where
  MintDenom : String
  InflationRateChange : Dec
  InflationMax : Dec
  InflationMin : Dec
  GoalBonded : Dec
  BlocksPerYear : Nat
deriving DecidableEq, Repr

/-- The type `mint.GenesisState`. -/
structure MintGenesisState where
  Minter : Minter
  Params : MintParams
deriving DecidableEq, Repr

/-- The type `staking/types.Params`, with the fields this file sets. -/
structure StakingParams where
  UnbondingTime : Duration
  MaxValidators : Nat
  MaxEntries : Nat
  BondDenom : String
deriving DecidableEq, Repr

/-- The type `staking.GenesisState`, with the fields this file sets. -/
structure StakingGenesisState where
  Params : StakingParams
deriving DecidableEq, Repr

/-- The type `staking.Pool`. -/
structure Pool where
  NotBondedTokens : Int
  BondedTokens : Int
deriving DecidableEq, Repr

/-- The type `supply.GenesisState`. -/
structure SupplyGenesisState where
  Supply : Coins
deriving DecidableEq, Repr

/-- The type `slashing.Params`. -/
structure SlashingParams where
  MaxEvidenceAge : Duration
  SignedBlocksWindow : Int
  DowntimeJailDuration : Duration
  MinSignedPerWindow : Dec
  SlashFractionDoubleSign : Dec
  SlashFractionDowntime : Dec
deriving DecidableEq, Repr

/-- The type `slashing.GenesisState`, with the fields this file sets. -/
structure SlashingGenesisState where
  Params : SlashingParams
deriving DecidableEq, Repr

/-- The type `distr.GenesisState`, with the fields this file sets; `F` is the type of
the fee pool. -/
structure DistrGenesisState (F : Type) where
  FeePool : F
  CommunityTax : Dec
  BaseProposerReward : Dec
  BonusProposerReward : Dec
  WithdrawAddrEnabled : Bool
  PreviousProposer : Option (List Nat)

/-- The type `gov.DepositParams`. -/
structure DepositParams where
  MinDeposit : Coins
  MaxDepositPeriod : Duration
deriving DecidableEq, Repr

/-- The type `gov.VotingParams`. -/
structure VotingParams where
  VotingPeriod : Duration
deriving DecidableEq, Repr

/-- The type `gov.TallyParams`. -/
structure TallyParams where
  Quorum : Dec
  Threshold : Dec
  Veto : Dec
deriving DecidableEq, Repr

/-- The type `gov.GenesisState`, with the fields this file sets. -/
structure GovGenesisState where
  StartingProposalID : Nat
  DepositParams : DepositParams
  VotingParams : VotingParams
  TallyParams : TallyParams
deriving DecidableEq, Repr

/-- The type `crisis.GenesisState`. -/
structure CrisisGenesisState where
  ConstantFee : Coin
deriving DecidableEq, Repr

/-- The type `wasm.GenesisState`, of which this file only builds the zero value. -/
structure WasmGenesisState where
deriving DecidableEq, Repr

/-- What `NewDefaultGenesisState` takes from other packages: the constants `coin.CYB`
and `coin.Giga`, the value of `distr.InitialFeePool()`, and the default sub-states
`bandwidth.DefaultGenesisState()` and `rank.DefaultGenesisState()`, with their types.
The coin constructors `coin.NewCybCoin(n)` and `sdk.NewCoin(coin.CYB, sdk.NewInt(n))`
are written as the coin of denomination `coin.CYB` and amount `n`, `sdk.NewCoins()` as
the empty balance set and `sdk.ZeroInt()` as `0`. -/
structure DefaultExternals where
  FeePool : Type
  BandwidthGenesisState : Type
  RankGenesisState : Type
  CYB : String
  Giga : Int
  InitialFeePool : FeePool
  BandwidthDefault : BandwidthGenesisState
  RankDefault : RankGenesisState

/-- The sub-state types that `NewDefaultGenesisState` fills. -/
abbrev defaultModules (X : DefaultExternals) : ModuleTypes :=
  { AuthGenesisState := AuthGenesisState, BankGenesisState := BankGenesisState,
    DistrGenesisState := DistrGenesisState X.FeePool, MintGenesisState := MintGenesisState,
    StakingGenesisState := StakingGenesisState, StakingPool := Pool,
    SupplyGenesisState := SupplyGenesisState, SlashingGenesisState := SlashingGenesisState,
    GovGenesisState := GovGenesisState, BandwidthGenesisState := X.BandwidthGenesisState,
    RankGenesisState := X.RankGenesisState, CrisisGenesisState := CrisisGenesisState,
    WasmGenesisState := WasmGenesisState }

/-- The function `NewDefaultGenesisState()`. -/
def NewDefaultGenesisState (X : DefaultExternals) : GenesisState (defaultModules X) :=
  { Accounts := []
    AuthData := ({ Params := { MaxMemoCharacters := 256, TxSigLimit := 10 } } : AuthGenesisState)
    BankData := ({ SendEnabled := true } : BankGenesisState)
    MintData :=
      ({ Minter := { Inflation := NewDecWithPrec 3 2, AnnualProvisions := NewDec 0 }
         Params :=
          { MintDenom := X.CYB
            InflationRateChange := NewDecWithPrec 10 2
            InflationMax := NewDecWithPrec 15 2
            InflationMin := NewDecWithPrec 1 2
            GoalBonded := NewDecWithPrec 88 2
            BlocksPerYear := 60 * 60 * 8766 / 5 } } : MintGenesisState)
    StakingData :=
      ({ Params :=
          { UnbondingTime := defaultUnbondingTime
            MaxValidators := 7
            MaxEntries := 7
            BondDenom := X.CYB } } : StakingGenesisState)
    Pool := ({ NotBondedTokens := 0, BondedTokens := 0 } : Pool)
    SupplyData := ({ Supply := [] } : SupplyGenesisState)
    SlashingData :=
      ({ Params :=
          { MaxEvidenceAge := defaultUnbondingTime
            SignedBlocksWindow := 60 * 4
            DowntimeJailDuration := 0
            MinSignedPerWindow := NewDecWithPrec 80 2
            SlashFractionDoubleSign := NewDecWithPrec 5 2
            SlashFractionDowntime := (NewDec 5).Quo (NewDec 10000) } } : SlashingGenesisState)
    DistrData :=
      ({ FeePool := X.InitialFeePool
         CommunityTax := NewDecWithPrec 10 2
         BaseProposerReward := NewDecWithPrec 1 2
         BonusProposerReward := NewDecWithPrec 5 2
         WithdrawAddrEnabled := true
         PreviousProposer := none } : DistrGenesisState X.FeePool)
    GovData :=
      ({ StartingProposalID := 1
         DepositParams :=
          { MinDeposit := [⟨X.CYB, 500 * X.Giga⟩], MaxDepositPeriod := 7200 * Second }
         VotingParams := { VotingPeriod := 7200 * Second }
         TallyParams :=
          { Quorum := NewDecWithPrec 334 3
            Threshold := NewDecWithPrec 5 1
            Veto := NewDecWithPrec 334 3 } } : GovGenesisState)
    BandwidthData := X.BandwidthDefault
    RankData := X.RankDefault
    GenTxs := []
    Crisis := ({ ConstantFee := ⟨X.CYB, 1000⟩ } : CrisisGenesisState)
    Wasm := ({ } : WasmGenesisState) }

/-! ## Sample instances

A small codec, module family and validator family at which the general statements
below are evaluated. -/

/-- A module family in which every sub-state is a number. -/
def numModules : ModuleTypes :=
  { AuthGenesisState := Nat, BankGenesisState := Nat, DistrGenesisState := Nat,
    MintGenesisState := Nat, StakingGenesisState := Nat, StakingPool := Nat,
    SupplyGenesisState := Nat, SlashingGenesisState := Nat, GovGenesisState := Nat,
    BandwidthGenesisState := Nat, RankGenesisState := Nat, CrisisGenesisState := Nat,
    WasmGenesisState := Nat }

/-- The container of `numModules` with the given accounts and every sub-state `0`. -/
def numState (accounts : List GenesisAccount) : GenesisState numModules :=
  { Accounts := accounts, AuthData := (0 : Nat), BankData := (0 : Nat), DistrData := (0 : Nat),
    MintData := (0 : Nat), StakingData := (0 : Nat), Pool := (0 : Nat),
    SupplyData := (0 : Nat), SlashingData := (0 : Nat), GovData := (0 : Nat),
    BandwidthData := (0 : Nat), RankData := (0 : Nat), GenTxs := [],
    Crisis := (0 : Nat), Wasm := (0 : Nat) }

/-- A validator of a numeric sub-state: `0` is valid, anything else is rejected with
an error carrying the module's name. -/
def numValidate (module : String) (s : Nat) : Option Error :=
  if s = 0 then none else some ⟨module ++ ": invalid genesis state"⟩

/-- An address rendering for the samples: the bytes in decimal, separated by dots. -/
def dotString (addr : AccAddress) : String := ".".intercalate (addr.map toString)

/-- The validators of `numModules`. -/
def numValidators : ModuleValidators numModules :=
  { addrString := dotString,
    staking := numValidate "staking", mint := numValidate "mint",
    distr := numValidate "distribution", gov := numValidate "gov",
    bank := numValidate "bank", supply := numValidate "supply",
    bandwidth := numValidate "bandwidth", rank := numValidate "rank",
    wasm := numValidate "wasm" }

/-- A codec for the samples. A document decodes unless it is empty. A transaction is
one byte: `1` is a transaction with one create-validator message, `2` one with a single
message of another type, `3` one with two create-validator messages, `0` one without
messages; anything else fails to decode. -/
def numCodec : Codec numModules :=
  { UnmarshalGenesisState := fun raw =>
      match raw with
      | [] => (numState [], some ⟨"unexpected end of JSON input"⟩)
      | _ => (numState [], none)
    UnmarshalStdTx := fun raw =>
      match raw with
      | [0] => (⟨[], ""⟩, none)
      | [1] => (⟨[.MsgCreateValidator []], ""⟩, none)
      | [2] => (⟨[.other "cosmos-sdk/MsgSend" []], ""⟩, none)
      | [3] => (⟨[.MsgCreateValidator [], .MsgCreateValidator []], ""⟩, none)
      | _ => (⟨[], ""⟩, some ⟨"unexpected end of JSON input"⟩) }

/-- A descriptor with the given address and every other field zero. -/
def plainAccount (addr : AccAddress) : GenesisAccount :=
  { Address := addr, Coins := [], Sequence := 0, AccountNumber := 0, OriginalVesting := [],
    DelegatedFree := [], DelegatedVesting := [], StartTime := 0, EndTime := 0,
    ModuleName := "", ModulePermissions := [] }

/-- A vesting descriptor for the samples: 100 cyb vesting until time 2000, the start
time left to the caller. -/
def vestingSample (startTime : Int) : GenesisAccount :=
  { Address := [7, 7], Coins := [⟨"cyb", 100⟩], Sequence := 3, AccountNumber := 9,
    OriginalVesting := [⟨"cyb", 100⟩], DelegatedFree := [], DelegatedVesting := [⟨"cyb", 1⟩],
    StartTime := startTime, EndTime := 2000, ModuleName := "", ModulePermissions := [] }

/-- A descriptor without vesting for the samples, the module name left to the caller. -/
def moduleSample (name : String) : GenesisAccount :=
  { Address := [4], Coins := [⟨"cyb", 5⟩], Sequence := 1, AccountNumber := 2,
    OriginalVesting := [⟨"cyb", 0⟩], DelegatedFree := [], DelegatedVesting := [],
    StartTime := 0, EndTime := 0, ModuleName := name, ModulePermissions := ["minter", "burner"] }

/-- A descriptor for the samples without vesting, with module name `mint` and a single,
empty permission. -/
def blankPermissionSample : GenesisAccount :=
  { moduleSample "mint" with ModulePermissions := [""] }

/-- A descriptor for the samples whose two balances are not in denomination order. -/
def unsortedSample : GenesisAccount :=
  { Address := [5], Coins := [⟨"cyb", 5⟩, ⟨"boot", 3⟩], Sequence := 1, AccountNumber := 2,
    OriginalVesting := [], DelegatedFree := [], DelegatedVesting := [],
    StartTime := 0, EndTime := 0, ModuleName := "", ModulePermissions := [] }

/-- Sample values for what `NewDefaultGenesisState` takes from other packages. -/
def sampleExternals : DefaultExternals :=
  { FeePool := List (String × Dec), BandwidthGenesisState := Nat, RankGenesisState := Nat,
    CYB := "cyb", Giga := 1000000000, InitialFeePool := [], BandwidthDefault := (0 : Nat),
    RankDefault := (0 : Nat) }

/-- A sample genesis document; `numCodec` decodes its application state. -/
def sampleDoc : GenesisDoc := { ChainID := "euler", AppState := [1] }

/-! ## Predicates used in the statements -/

/-- The codec decodes the raw transaction, and the decoded transaction carries exactly
one message, which is a create-validator message. -/
def isWellFormedGenTx {M : ModuleTypes} (cdc : Codec M) (raw : RawMessage) : Bool :=
  match cdc.UnmarshalStdTx raw with
  | (tx, none) =>
    match tx.GetMsgs with
    | [.MsgCreateValidator _] => true
    | _ => false
  | (_, some _) => false

/-- The results of the ten checks of `validateGenesisState`, each taken once, in the
order duplicate addresses, staking, minting, distribution, governance, balances,
supply, bandwidth, ranking, contract layer. -/
def validationChecks {M : ModuleTypes} (V : ModuleValidators M) (genesisState : GenesisState M) :
    List (Option Error) :=
  [ validateGenesisStateAccounts V.addrString genesisState.Accounts,
    V.staking genesisState.StakingData,
    V.mint genesisState.MintData,
    V.distr genesisState.DistrData,
    V.gov genesisState.GovData,
    V.bank genesisState.BankData,
    V.supply genesisState.SupplyData,
    V.bandwidth genesisState.BandwidthData,
    V.rank genesisState.RankData,
    V.wasm genesisState.Wasm ]

/-- The simplified validator that the spec allows in place of `validateGenesisState`:
the duplicate-address check, then the staking, minting, distribution, governance,
balances, supply, bandwidth, ranking and contract-layer validators, each called exactly
once in that order, stopping at the first error. -/
def validateGenesisStateSimplified {M : ModuleTypes} (V : ModuleValidators M)
    (genesisState : GenesisState M) : Option Error :=
  match validateGenesisStateAccounts V.addrString genesisState.Accounts with
  | some err => some err
  | none =>
  match V.staking genesisState.StakingData with
  | some err => some err
  | none =>
  match V.mint genesisState.MintData with
  | some err => some err
  | none =>
  match V.distr genesisState.DistrData with
  | some err => some err
  | none =>
  match V.gov genesisState.GovData with
  | some err => some err
  | none =>
  match V.bank genesisState.BankData with
  | some err => some err
  | none =>
  match V.supply genesisState.SupplyData with
  | some err => some err
  | none =>
  match V.bandwidth genesisState.BandwidthData with
  | some err => some err
  | none =>
  match V.rank genesisState.RankData with
  | some err => some err
  | none => V.wasm genesisState.Wasm

/-! ## Duplicate-address check -/

/-- The loop of `validateGenesisStateAccounts` finds nothing exactly when no remaining
address is among the recorded ones and the remaining addresses are pairwise distinct. -/
theorem validateGenesisStateAccounts.loop_eq_none_iff (addrString : AccAddress → String) :
    ∀ (accs : List GenesisAccount) (addrMap : List AccAddress),
      validateGenesisStateAccounts.loop addrString accs addrMap = none ↔
        (∀ a ∈ accs, a.Address ∉ addrMap) ∧
          accs.Pairwise (fun a b => a.Address ≠ b.Address) := by
  intro accs
  induction accs with
  | nil => intro addrMap; simp [validateGenesisStateAccounts.loop]
  | cons acc rest ih =>
    intro addrMap
    simp only [validateGenesisStateAccounts.loop]
    by_cases h : acc.Address ∈ addrMap
    · simp only [h, if_true]
      constructor
      · intro hc; cases hc
      · rintro ⟨hall, -⟩
        exact absurd h (hall acc (List.mem_cons_self _ _))
    · simp only [h, if_false]
      rw [ih, List.pairwise_cons]
      constructor
      · rintro ⟨hall, hp⟩
        refine ⟨?_, ?_, hp⟩
        · intro a ha
          rcases List.mem_cons.1 ha with rfl | ha
          · exact h
          · exact fun hm => hall a ha (List.mem_cons_of_mem _ hm)
        · intro b hb heq
          exact hall b hb (heq ▸ List.mem_cons_self _ _)
      · rintro ⟨hall, hne, hp⟩
        refine ⟨?_, hp⟩
        intro a ha hm
        rcases List.mem_cons.1 hm with heq | hm
        · exact hne a ha heq.symm
        · exact hall a (List.mem_cons_of_mem _ ha) hm

/-- The loop of `validateGenesisStateAccounts` stops at the first account whose address
was recorded or occurs earlier in the list, and reports that address. -/
theorem validateGenesisStateAccounts.loop_first_repeat (addrString : AccAddress → String)
    (acc : GenesisAccount) (post : List GenesisAccount) :
    ∀ (pre : List GenesisAccount) (addrMap : List AccAddress),
      (∀ a ∈ pre, a.Address ∉ addrMap) →
      pre.Pairwise (fun a b => a.Address ≠ b.Address) →
      (acc.Address ∈ addrMap ∨ ∃ a ∈ pre, a.Address = acc.Address) →
      validateGenesisStateAccounts.loop addrString (pre ++ acc :: post) addrMap =
        some (fmtErrorf
          ("duplicate account in genesis state: Address " ++ addrString acc.Address)) := by
  intro pre
  induction pre with
  | nil =>
    intro addrMap _ _ h
    have hm : acc.Address ∈ addrMap := by
      rcases h with h | ⟨a, ha, _⟩
      · exact h
      · cases ha
    simp [validateGenesisStateAccounts.loop, hm]
  | cons p pre ih =>
    intro addrMap hall hp h
    have hpm : p.Address ∉ addrMap := hall p (List.mem_cons_self _ _)
    rw [List.pairwise_cons] at hp
    simp only [List.cons_append, validateGenesisStateAccounts.loop, hpm, if_false]
    apply ih
    · intro a ha hm
      rcases List.mem_cons.1 hm with heq | hm
      · exact hp.1 a ha heq.symm
      · exact hall a (List.mem_cons_of_mem _ ha) hm
    · exact hp.2
    · rcases h with h | ⟨a, ha, heq⟩
      · exact Or.inl (List.mem_cons_of_mem _ h)
      · rcases List.mem_cons.1 ha with rfl | ha
        · exact Or.inl (heq ▸ List.mem_cons_self _ _)
        · exact Or.inr ⟨a, ha, heq⟩

/-- A list splits around the element at a valid index. -/
theorem list_split_at_index {α : Type} (l : List α) (j : Nat) (a : α) (h : l[j]? = some a) :
    l = l.take j ++ a :: l.drop (j + 1) := by
  obtain ⟨hlt, rfl⟩ := List.getElem?_eq_some.1 h
  rw [← List.drop_eq_getElem_cons hlt, List.take_append_drop]

/-- An element of the first `j` entries sits at an index below `j`. -/
theorem list_index_of_mem_take {α : Type} (l : List α) (j : Nat) (a : α) (h : a ∈ l.take j) :
    ∃ i, i < j ∧ l[i]? = some a := by
  obtain ⟨i, hi, rfl⟩ := List.mem_take_iff_getElem.1 h
  have hi1 : i < j := lt_of_lt_of_le hi (min_le_left _ _)
  have hi2 : i < l.length := lt_of_lt_of_le hi (min_le_right _ _)
  exact ⟨i, hi1, List.getElem?_eq_getElem hi2⟩

/-- The entry at an index below `j` is among the first `j` entries. -/
theorem list_mem_take_of_index {α : Type} (l : List α) (i j : Nat) (a : α) (hij : i < j)
    (h : l[i]? = some a) : a ∈ l.take j := by
  obtain ⟨hlt, rfl⟩ := List.getElem?_eq_some.1 h
  exact List.mem_take_iff_getElem.2 ⟨i, lt_min hij hlt, rfl⟩

/-- A text occurs in every text that ends with it. -/
theorem mentions_append_right (a b : String) : Mentions (a ++ b) b := by
  unfold Mentions
  rw [String.data_append]
  exact ⟨a.data, [], by simp⟩

/-- A text occurs in every text built around it. -/
theorem mentions_append_middle (a b c : String) : Mentions (a ++ b ++ c) b := by
  unfold Mentions
  rw [String.data_append, String.data_append]
  exact ⟨a.data, c.data, rfl⟩

/-- C1: `validateGenesisStateAccounts` returns an error if and only if two distinct
positions of the list hold equal addresses; on a list whose addresses are pairwise
distinct it returns no error. -/
theorem validateGenesisStateAccounts_error_iff_duplicate (addrString : AccAddress → String)
    (accs : List GenesisAccount) :
    (validateGenesisStateAccounts addrString accs ≠ none ↔
        ∃ i j : Fin accs.length, i ≠ j ∧ (accs.get i).Address = (accs.get j).Address) ∧
      ((∀ i j : Fin accs.length, i ≠ j → (accs.get i).Address ≠ (accs.get j).Address) →
        validateGenesisStateAccounts addrString accs = none) := by
  have key : validateGenesisStateAccounts addrString accs = none ↔
      ∀ i j : Fin accs.length, i ≠ j → (accs.get i).Address ≠ (accs.get j).Address := by
    unfold validateGenesisStateAccounts
    rw [validateGenesisStateAccounts.loop_eq_none_iff, List.pairwise_iff_get]
    constructor
    · rintro ⟨-, hp⟩ i j hij
      rcases lt_or_gt_of_ne hij with hlt | hgt
      · exact hp i j hlt
      · exact fun heq => hp j i hgt heq.symm
    · intro hd
      exact ⟨fun a _ hm => (List.not_mem_nil _ hm).elim, fun i j hlt => hd i j (ne_of_lt hlt)⟩
  refine ⟨?_, key.2⟩
  rw [Ne, key]
  push_neg
  rfl

/-- C1 at a list that repeats an address and at a list that does not. -/
theorem validateGenesisStateAccounts_error_iff_duplicate_witness :
    validateGenesisStateAccounts dotString [plainAccount [1], plainAccount [1]] ≠ none ∧
      validateGenesisStateAccounts dotString [plainAccount [1], plainAccount [2]] = none :=
  ⟨(validateGenesisStateAccounts_error_iff_duplicate dotString
      [plainAccount [1], plainAccount [1]]).1.2 ⟨⟨0, by decide⟩, ⟨1, by decide⟩, by decide, rfl⟩,
    (validateGenesisStateAccounts_error_iff_duplicate dotString
      [plainAccount [1], plainAccount [2]]).2 (by decide)⟩

/-- C10: when `j` is the smallest index whose address already occurs at a smaller
index, the error of `validateGenesisStateAccounts` is the duplicate-account error built
from the address at index `j`, and its message contains that address's rendering. -/
theorem validateGenesisStateAccounts_names_first_repeat (addrString : AccAddress → String)
    (accs : List GenesisAccount) (j : Nat) (acc : GenesisAccount)
    (hj : accs[j]? = some acc)
    (hrep : ∃ i a, i < j ∧ accs[i]? = some a ∧ a.Address = acc.Address)
    (hmin : ∀ k b, k < j → accs[k]? = some b →
      ∀ i a, i < k → accs[i]? = some a → a.Address ≠ b.Address) :
    validateGenesisStateAccounts addrString accs =
        some (fmtErrorf
          ("duplicate account in genesis state: Address " ++ addrString acc.Address)) ∧
      Mentions ("duplicate account in genesis state: Address " ++ addrString acc.Address)
        (addrString acc.Address) := by
  refine ⟨?_, ?_⟩
  · unfold validateGenesisStateAccounts
    rw [list_split_at_index accs j acc hj]
    apply validateGenesisStateAccounts.loop_first_repeat
    · intro a _ hm; cases hm
    · rw [List.pairwise_iff_getElem]
      intro i k hi hk hik
      have hk1 : k < j := lt_of_lt_of_le hk (by simp)
      have hkl : k < accs.length := lt_of_lt_of_le hk (by simp)
      have hil : i < accs.length := lt_trans hik hkl
      rw [List.getElem_take, List.getElem_take]
      exact hmin k accs[k] hk1 (List.getElem?_eq_getElem hkl) i accs[i] hik
        (List.getElem?_eq_getElem hil)
    · obtain ⟨i, a, hij, ha, heq⟩ := hrep
      exact Or.inr ⟨a, list_mem_take_of_index accs i j a hij ha, heq⟩
  · exact mentions_append_right _ _

/-- The hypotheses of C10 at a three-account list whose last address repeats the first. -/
theorem validateGenesisStateAccounts_names_first_repeat_witness :
    validateGenesisStateAccounts dotString
        [plainAccount [1, 2], plainAccount [3], plainAccount [1, 2]] =
      some (fmtErrorf ("duplicate account in genesis state: Address " ++ dotString [1, 2])) ∧
    Mentions ("duplicate account in genesis state: Address " ++ dotString [1, 2])
      (dotString [1, 2]) :=
  validateGenesisStateAccounts_names_first_repeat dotString
    [plainAccount [1, 2], plainAccount [3], plainAccount [1, 2]] 2 (plainAccount [1, 2]) rfl
    ⟨0, plainAccount [1, 2], by decide, rfl, rfl⟩
    (by
      intro k b hk hb i a hi ha
      have hk2 : k = 0 ∨ k = 1 := by omega
      rcases hk2 with rfl | rfl
      · omega
      · have hi0 : i = 0 := by omega
        subst hi0
        simp at hb ha
        subst hb ha
        simp [plainAccount])

/-! ## Account normalisation -/

/-- C2: for a descriptor whose original-vesting set is non-zero and whose end time is
non-zero, `ToAccount` returns a vesting account around the base account (the
descriptor's address, sorted balances, no public key, account number, sequence), the
original-vesting, delegated-free and delegated-vesting sets and the end time: a
continuous one with the descriptor's start time when that is non-zero, a delayed one
when it is zero. -/
theorem ToAccount_vesting (ga : GenesisAccount) (hov : ga.OriginalVesting.IsZero = false)
    (hend : ga.EndTime ≠ 0) :
    (ga.StartTime ≠ 0 →
      ga.ToAccount.2 = some (.continuousVesting
        { BaseVestingAccount :=
            { BaseAccount :=
                { Address := ga.Address, Coins := ga.Coins.Sort, PubKey := none,
                  AccountNumber := ga.AccountNumber, Sequence := ga.Sequence }
              OriginalVesting := ga.OriginalVesting
              DelegatedFree := ga.DelegatedFree
              DelegatedVesting := ga.DelegatedVesting
              EndTime := ga.EndTime }
          StartTime := ga.StartTime })) ∧
    (ga.StartTime = 0 →
      ga.ToAccount.2 = some (.delayedVesting
        { BaseVestingAccount :=
            { BaseAccount :=
                { Address := ga.Address, Coins := ga.Coins.Sort, PubKey := none,
                  AccountNumber := ga.AccountNumber, Sequence := ga.Sequence }
              OriginalVesting := ga.OriginalVesting
              DelegatedFree := ga.DelegatedFree
              DelegatedVesting := ga.DelegatedVesting
              EndTime := ga.EndTime } })) := by
  constructor
  · intro hstart
    simp [GenesisAccount.ToAccount, hov, hend, hstart, NewContinuousVestingAccountRaw,
      NewBaseVestingAccount, NewBaseAccount]
  · intro hstart
    simp [GenesisAccount.ToAccount, hov, hend, hstart, NewDelayedVestingAccountRaw,
      NewBaseVestingAccount, NewBaseAccount]

/-- C2 at two descriptors: start time 1000 gives the continuous account, start time 0
the delayed one. -/
theorem ToAccount_vesting_witness :
    (vestingSample 1000).ToAccount.2 = some (.continuousVesting
        { BaseVestingAccount :=
            { BaseAccount :=
                { Address := [7, 7], Coins := [⟨"cyb", 100⟩], PubKey := none,
                  AccountNumber := 9, Sequence := 3 }
              OriginalVesting := [⟨"cyb", 100⟩]
              DelegatedFree := []
              DelegatedVesting := [⟨"cyb", 1⟩]
              EndTime := 2000 }
          StartTime := 1000 }) ∧
    (vestingSample 0).ToAccount.2 = some (.delayedVesting
        { BaseVestingAccount :=
            { BaseAccount :=
                { Address := [7, 7], Coins := [⟨"cyb", 100⟩], PubKey := none,
                  AccountNumber := 9, Sequence := 3 }
              OriginalVesting := [⟨"cyb", 100⟩]
              DelegatedFree := []
              DelegatedVesting := [⟨"cyb", 1⟩]
              EndTime := 2000 } }) :=
  ⟨(ToAccount_vesting (vestingSample 1000) (by decide) (by decide)).1 (by decide),
    (ToAccount_vesting (vestingSample 0) (by decide) (by decide)).2 (by decide)⟩

/-- The permissions pass `validatePermissions` exactly when none of them is empty once
its white space is trimmed. -/
theorem validatePermissions_eq_none_iff (permissions : List String) :
    validatePermissions permissions = none ↔ ∀ p ∈ permissions, TrimSpace p ≠ "" := by
  induction permissions with
  | nil => simp [validatePermissions]
  | cons perm rest ih =>
    by_cases hblank : TrimSpace perm = ""
    · simp [validatePermissions, hblank]
    · simp [validatePermissions, hblank, ih]

/-- The module-account constructor panics exactly when some permission is empty once
its white space is trimmed. -/
theorem NewModuleAccount_eq_none_iff (ba : BaseAccount) (name : String)
    (permissions : List String) :
    NewModuleAccount ba name permissions = none ↔ ∃ p ∈ permissions, TrimSpace p = "" := by
  unfold NewModuleAccount
  cases hv : validatePermissions permissions with
  | none =>
    have hall := (validatePermissions_eq_none_iff permissions).1 hv
    constructor
    · intro h; cases h
    · rintro ⟨p, hp, hblank⟩
      exact absurd hblank (hall p hp)
  | some err =>
    have hnot : ¬ ∀ p ∈ permissions, TrimSpace p ≠ "" := fun hall => by
      rw [(validatePermissions_eq_none_iff permissions).2 hall] at hv
      cases hv
    push_neg at hnot
    exact ⟨fun _ => hnot, fun _ => rfl⟩

/-- When the module-account constructor returns, it returns the record of its
arguments. -/
theorem NewModuleAccount_eq_some (ba : BaseAccount) (name : String)
    (permissions : List String) (acc : Account)
    (h : NewModuleAccount ba name permissions = some acc) :
    acc = .module { BaseAccount := ba, Name := name, Permissions := permissions } := by
  unfold NewModuleAccount at h
  cases hv : validatePermissions permissions with
  | none =>
    rw [hv] at h
    simp only [Option.some.injEq] at h
    exact h.symm
  | some err =>
    rw [hv] at h
    cases h

/-- C3, as the code has it: `ToAccount` panics exactly when either the original-vesting
set is non-zero and the end time is zero, whatever the start time, or the
original-vesting set is zero, the module name is non-empty and one of the permissions is
empty once its white space is trimmed (the module-account constructor panics); on every
other descriptor it returns an account. -/
theorem ToAccount_panics_iff (ga : GenesisAccount) :
    (ga.ToAccount.2 = none ↔
      ((ga.OriginalVesting.IsZero = false ∧ ga.EndTime = 0) ∨
        (ga.OriginalVesting.IsZero = true ∧ ga.ModuleName ≠ "" ∧
          ∃ p ∈ ga.ModulePermissions, TrimSpace p = ""))) ∧
    (¬ ((ga.OriginalVesting.IsZero = false ∧ ga.EndTime = 0) ∨
        (ga.OriginalVesting.IsZero = true ∧ ga.ModuleName ≠ "" ∧
          ∃ p ∈ ga.ModulePermissions, TrimSpace p = "")) →
      ∃ acc, ga.ToAccount.2 = some acc) := by
  have key : ga.ToAccount.2 = none ↔
      ((ga.OriginalVesting.IsZero = false ∧ ga.EndTime = 0) ∨
        (ga.OriginalVesting.IsZero = true ∧ ga.ModuleName ≠ "" ∧
          ∃ p ∈ ga.ModulePermissions, TrimSpace p = "")) := by
    unfold GenesisAccount.ToAccount
    by_cases hov : ga.OriginalVesting.IsZero = false
    · by_cases hend : ga.EndTime = 0
      · simp [hov, hend]
      · by_cases hstart : ga.StartTime = 0 <;> simp [hov, hend, hstart]
    · simp only [Bool.not_eq_false] at hov
      by_cases hname : ga.ModuleName = ""
      · simp [hov, hname]
      · simp only [hov, Bool.not_true, Bool.false_eq_true, if_false, ne_eq, hname,
          not_false_eq_true, if_true, NewModuleAccount_eq_none_iff, false_and, true_and,
          false_or]
        simp
  refine ⟨key, fun h => ?_⟩
  cases hres : ga.ToAccount.2 with
  | none => exact absurd (key.1 hres) h
  | some acc => exact ⟨acc, rfl⟩

/-- C3 as amended, at a descriptor that panics in the vesting branch (vesting balance,
end time zero, start time set), at one that panics in the module branch (empty
permission) and at one that returns. -/
theorem ToAccount_panics_iff_witness :
    ({ vestingSample 1000 with EndTime := 0 } : GenesisAccount).ToAccount.2 = none ∧
    blankPermissionSample.ToAccount.2 = none ∧
    ∃ acc, (moduleSample "mint").ToAccount.2 = some acc :=
  ⟨(ToAccount_panics_iff _).1.2 (Or.inl ⟨by decide, by decide⟩),
    (ToAccount_panics_iff blankPermissionSample).1.2
      (Or.inr ⟨by decide, by decide, "", by decide, by decide⟩),
    (ToAccount_panics_iff (moduleSample "mint")).2 (by decide)⟩

/-- C3 as stated fails: the descriptor with zero vesting, module name `mint` and the
single permission "" makes `ToAccount` panic, although it is not the case that its
original-vesting set is non-zero and its end time zero. -/
theorem ToAccount_panics_on_blank_permission :
    blankPermissionSample.ToAccount.2 = none ∧
      ¬ (blankPermissionSample.OriginalVesting.IsZero = false ∧
        blankPermissionSample.EndTime = 0) := by
  constructor
  · rfl
  · decide

/-- C4, as the code has it: for a descriptor whose original-vesting set is zero,
`ToAccount` returns the module account with the descriptor's module name and its
permission list unchanged when the module name is non-empty and no permission is empty
once its white space is trimmed; it panics when the module name is non-empty and some
permission is empty in that sense; it returns the plain base account when the module
name is empty. -/
theorem ToAccount_nonvesting (ga : GenesisAccount) (hov : ga.OriginalVesting.IsZero = true) :
    (ga.ModuleName ≠ "" → (∀ p ∈ ga.ModulePermissions, TrimSpace p ≠ "") →
      ga.ToAccount.2 = some (.module
        { BaseAccount :=
            { Address := ga.Address, Coins := ga.Coins.Sort, PubKey := none,
              AccountNumber := ga.AccountNumber, Sequence := ga.Sequence }
          Name := ga.ModuleName
          Permissions := ga.ModulePermissions })) ∧
    (ga.ModuleName ≠ "" → (∃ p ∈ ga.ModulePermissions, TrimSpace p = "") →
      ga.ToAccount.2 = none) ∧
    (ga.ModuleName = "" →
      ga.ToAccount.2 = some (.base
        { Address := ga.Address, Coins := ga.Coins.Sort, PubKey := none,
          AccountNumber := ga.AccountNumber, Sequence := ga.Sequence })) := by
  refine ⟨?_, ?_, ?_⟩
  · intro hname hperms
    have hv := (validatePermissions_eq_none_iff ga.ModulePermissions).2 hperms
    simp [GenesisAccount.ToAccount, hov, hname, NewModuleAccount, hv, NewBaseAccount]
  · intro hname hblank
    have hnone := (NewModuleAccount_eq_none_iff
      (NewBaseAccount ga.Address ga.Coins.Sort none ga.AccountNumber ga.Sequence)
      ga.ModuleName ga.ModulePermissions).2 hblank
    simp [GenesisAccount.ToAccount, hov, hname, hnone]
  · intro hname
    simp [GenesisAccount.ToAccount, hov, hname, NewBaseAccount]

/-- C4 as amended, at a descriptor named `mint` with two permissions, at the same
descriptor with an empty permission, and at the same descriptor without a module name. -/
theorem ToAccount_nonvesting_witness :
    (moduleSample "mint").ToAccount.2 = some (.module
        { BaseAccount :=
            { Address := [4], Coins := [⟨"cyb", 5⟩], PubKey := none,
              AccountNumber := 2, Sequence := 1 }
          Name := "mint"
          Permissions := ["minter", "burner"] }) ∧
    blankPermissionSample.ToAccount.2 = none ∧
    (moduleSample "").ToAccount.2 = some (.base
        { Address := [4], Coins := [⟨"cyb", 5⟩], PubKey := none,
          AccountNumber := 2, Sequence := 1 }) :=
  ⟨(ToAccount_nonvesting (moduleSample "mint") (by decide)).1 (by decide) (by decide),
    (ToAccount_nonvesting blankPermissionSample (by decide)).2.1 (by decide)
      ⟨"", by decide, by decide⟩,
    (ToAccount_nonvesting (moduleSample "") (by decide)).2.2 (by decide)⟩

/-- C4 as stated fails: a descriptor with zero vesting and module name `mint` whose
permission list is "minter", "" does not yield a module account (nor any account): the
call panics. -/
theorem ToAccount_no_module_account_on_blank_permission :
    ({ moduleSample "mint" with ModulePermissions := ["minter", ""] } :
        GenesisAccount).OriginalVesting.IsZero = true ∧
      ({ moduleSample "mint" with ModulePermissions := ["minter", ""] } :
        GenesisAccount).ModuleName ≠ "" ∧
      ({ moduleSample "mint" with ModulePermissions := ["minter", ""] } :
        GenesisAccount).ToAccount.2 = none ∧
      ∀ a, ({ moduleSample "mint" with ModulePermissions := ["minter", ""] } :
        GenesisAccount).ToAccount.2 ≠ some (.module a) := by
  refine ⟨by decide, by decide, rfl, fun a h => ?_⟩
  have hnone : ({ moduleSample "mint" with ModulePermissions := ["minter", ""] } :
      GenesisAccount).ToAccount.2 = none := rfl
  rw [hnone] at h
  cases h

/-! ## Genesis assembly -/

/-- The loop of `CyberdAppGenState` passes over well-formed transactions, counting
them. -/
theorem CyberdAppGenState.loop_skip {M : ModuleTypes} (cdc : Codec M)
    (rest : List RawMessage) :
    ∀ (pre : List RawMessage) (n : Nat),
      (∀ r ∈ pre, isWellFormedGenTx cdc r = true) →
      CyberdAppGenState.loop cdc n (pre ++ rest) =
        CyberdAppGenState.loop cdc (n + pre.length) rest := by
  intro pre
  induction pre with
  | nil => intro n _; simp
  | cons r pre ih =>
    intro n hall
    have hr := hall r (List.mem_cons_self _ _)
    have hpre : ∀ x ∈ pre, isWellFormedGenTx cdc x = true :=
      fun x hx => hall x (List.mem_cons_of_mem _ hx)
    have hstep : CyberdAppGenState.loop cdc n (r :: (pre ++ rest)) =
        CyberdAppGenState.loop cdc (n + 1) (pre ++ rest) := by
      unfold isWellFormedGenTx at hr
      rw [CyberdAppGenState.loop]
      rcases hdec : cdc.UnmarshalStdTx r with ⟨tx, _ | err⟩
      · rw [hdec] at hr
        simp only at hr
        rcases hmsgs : tx.GetMsgs with _ | ⟨m, _ | ⟨m2, ms⟩⟩
        · rw [hmsgs] at hr; simp at hr
        · rw [hmsgs] at hr
          cases m with
          | MsgCreateValidator body => simp [hmsgs]
          | other typ body => simp at hr
        · rw [hmsgs] at hr; simp at hr
      · rw [hdec] at hr; simp at hr
    rw [List.cons_append, hstep, ih (n + 1) hpre, List.length_cons]
    congr 1
    omega

/-- With the document decoded and the first `i` transactions well-formed, the result of
`CyberdAppGenState` is decided by the loop entered at transaction `i`. -/
theorem CyberdAppGenState.reaches_index {M : ModuleTypes} (cdc : Codec M) (genDoc : GenesisDoc)
    (appGenTxs : List RawMessage) (gs0 : GenesisState M) (i : Nat) (raw : RawMessage)
    (hdoc : cdc.UnmarshalGenesisState genDoc.AppState = (gs0, none))
    (hi : appGenTxs[i]? = some raw)
    (hpre : ∀ k r, k < i → appGenTxs[k]? = some r → isWellFormedGenTx cdc r = true)
    (err : Error)
    (hloop : CyberdAppGenState.loop cdc i (raw :: appGenTxs.drop (i + 1)) = some err) :
    CyberdAppGenState cdc genDoc appGenTxs = (gs0, some err) := by
  have hsplit := list_split_at_index appGenTxs i raw hi
  have hlen : i < appGenTxs.length := (List.getElem?_eq_some.1 hi).1
  have hne : appGenTxs.length ≠ 0 := by omega
  have htake : (appGenTxs.take i).length = i := by
    rw [List.length_take]; exact min_eq_left (le_of_lt hlen)
  have hwf : ∀ r ∈ appGenTxs.take i, isWellFormedGenTx cdc r = true := by
    intro r hr
    obtain ⟨k, hk, hkr⟩ := list_index_of_mem_take appGenTxs i r hr
    exact hpre k r hk hkr
  have hrun : CyberdAppGenState.loop cdc 0 appGenTxs = some err := by
    rw [hsplit, CyberdAppGenState.loop_skip cdc _ _ 0 hwf, htake, Nat.zero_add]
    exact hloop
  unfold CyberdAppGenState
  rw [hdoc]
  simp only [hne, if_false, hrun]

/-- C5: when the document's application state decodes and the batch is non-empty and
made of well-formed transactions (each decodes and carries exactly one message, a
create-validator message), `CyberdAppGenState` returns no error and the decoded
container with its transaction list replaced by the batch, every other field unchanged. -/
theorem CyberdAppGenState_attaches_batch {M : ModuleTypes} (cdc : Codec M) (genDoc : GenesisDoc)
    (appGenTxs : List RawMessage) (gs0 : GenesisState M)
    (hdoc : cdc.UnmarshalGenesisState genDoc.AppState = (gs0, none))
    (hne : appGenTxs ≠ [])
    (hall : ∀ raw ∈ appGenTxs, isWellFormedGenTx cdc raw = true) :
    CyberdAppGenState cdc genDoc appGenTxs = ({ gs0 with GenTxs := appGenTxs }, none) ∧
      (CyberdAppGenState cdc genDoc appGenTxs).1.GenTxs = appGenTxs ∧
      (CyberdAppGenState cdc genDoc appGenTxs).1.GenTxs.length = appGenTxs.length := by
  have hlen : appGenTxs.length ≠ 0 := fun h => hne (List.length_eq_zero.1 h)
  have hrun : CyberdAppGenState.loop cdc 0 appGenTxs = none := by
    have h := CyberdAppGenState.loop_skip cdc [] appGenTxs 0 hall
    rw [List.append_nil] at h
    rw [h, CyberdAppGenState.loop]
  have hres : CyberdAppGenState cdc genDoc appGenTxs =
      ({ gs0 with GenTxs := appGenTxs }, none) := by
    unfold CyberdAppGenState
    rw [hdoc]
    simp only [hlen, if_false, hrun]
  refine ⟨hres, ?_, ?_⟩ <;> rw [hres]

/-- C5 at the sample codec and a batch of two well-formed transactions. -/
theorem CyberdAppGenState_attaches_batch_witness :
    CyberdAppGenState numCodec sampleDoc [[1], [1]] =
        ({ numState [] with GenTxs := [[1], [1]] }, none) ∧
      (CyberdAppGenState numCodec sampleDoc [[1], [1]]).1.GenTxs = [[1], [1]] ∧
      (CyberdAppGenState numCodec sampleDoc [[1], [1]]).1.GenTxs.length = 2 :=
  CyberdAppGenState_attaches_batch numCodec sampleDoc [[1], [1]] (numState []) rfl
    (by decide) (by decide)

/-- C6: when the document's application state decodes and the batch is empty,
`CyberdAppGenState` returns the error "there must be at least one genesis tx" (with the
decoded container), so it never succeeds. -/
theorem CyberdAppGenState_empty_batch {M : ModuleTypes} (cdc : Codec M) (genDoc : GenesisDoc)
    (gs0 : GenesisState M)
    (hdoc : cdc.UnmarshalGenesisState genDoc.AppState = (gs0, none)) :
    CyberdAppGenState cdc genDoc [] =
        (gs0, some (errorsNew "there must be at least one genesis tx")) ∧
      (CyberdAppGenState cdc genDoc []).2 ≠ none := by
  have hres : CyberdAppGenState cdc genDoc [] =
      (gs0, some (errorsNew "there must be at least one genesis tx")) := by
    unfold CyberdAppGenState
    rw [hdoc]
    simp
  exact ⟨hres, by rw [hres]; simp⟩

/-- C6 at the sample codec and document. -/
theorem CyberdAppGenState_empty_batch_witness :
    CyberdAppGenState numCodec sampleDoc [] =
        (numState [], some ⟨"there must be at least one genesis tx"⟩) ∧
      (CyberdAppGenState numCodec sampleDoc []).2 ≠ none :=
  CyberdAppGenState_empty_batch numCodec sampleDoc (numState []) rfl

/-- C7: when the document decodes, the transactions before index `i` are well-formed and
transaction `i` decodes: if it carries a number of messages other than one,
`CyberdAppGenState` returns the error "must provide genesis StdTx with exactly 1
CreateValidator message"; if it carries exactly one message that is not a
create-validator message, it returns the error "genesis transaction i does not contain a
MsgCreateValidator", whose message contains the index `i` in decimal. -/
theorem CyberdAppGenState_bad_message {M : ModuleTypes} (cdc : Codec M) (genDoc : GenesisDoc)
    (appGenTxs : List RawMessage) (gs0 : GenesisState M) (i : Nat) (raw : RawMessage)
    (tx : StdTx)
    (hdoc : cdc.UnmarshalGenesisState genDoc.AppState = (gs0, none))
    (hi : appGenTxs[i]? = some raw)
    (hpre : ∀ k r, k < i → appGenTxs[k]? = some r → isWellFormedGenTx cdc r = true)
    (hdec : cdc.UnmarshalStdTx raw = (tx, none)) :
    (tx.GetMsgs.length ≠ 1 →
      CyberdAppGenState cdc genDoc appGenTxs =
        (gs0, some (errorsNew
          "must provide genesis StdTx with exactly 1 CreateValidator message"))) ∧
    (∀ m, tx.GetMsgs = [m] → (∀ body, m ≠ Msg.MsgCreateValidator body) →
      CyberdAppGenState cdc genDoc appGenTxs =
          (gs0, some (fmtErrorf
            ("genesis transaction " ++ toString i ++
              " does not contain a MsgCreateValidator"))) ∧
        Mentions
          ("genesis transaction " ++ toString i ++ " does not contain a MsgCreateValidator")
          (toString i)) := by
  constructor
  · intro hcount
    apply CyberdAppGenState.reaches_index cdc genDoc appGenTxs gs0 i raw hdoc hi hpre
    rw [CyberdAppGenState.loop, hdec]
    simp [hcount]
  · intro m hm hkind
    refine ⟨?_, mentions_append_middle _ _ _⟩
    apply CyberdAppGenState.reaches_index cdc genDoc appGenTxs gs0 i raw hdoc hi hpre
    rw [CyberdAppGenState.loop, hdec]
    cases m with
    | MsgCreateValidator body => exact absurd rfl (hkind body)
    | other typ body => simp [hm]

/-- C7 at the sample codec: a batch whose transaction 1 carries two messages, and a
batch whose transaction 1 carries a single message of another type. -/
theorem CyberdAppGenState_bad_message_witness :
    CyberdAppGenState numCodec sampleDoc [[1], [3], [2]] =
        (numState [], some ⟨"must provide genesis StdTx with exactly 1 CreateValidator message"⟩) ∧
      CyberdAppGenState numCodec sampleDoc [[1], [2], [9]] =
        (numState [],
          some ⟨"genesis transaction 1 does not contain a MsgCreateValidator"⟩) ∧
      Mentions "genesis transaction 1 does not contain a MsgCreateValidator" "1" :=
  ⟨(CyberdAppGenState_bad_message numCodec sampleDoc [[1], [3], [2]] (numState []) 1 [3]
      ⟨[.MsgCreateValidator [], .MsgCreateValidator []], ""⟩ rfl rfl
      (by
        intro k r hk hr
        have hk0 : k = 0 := by omega
        subst hk0
        simp at hr
        subst hr
        rfl)
      rfl).1 (by decide),
    (CyberdAppGenState_bad_message numCodec sampleDoc [[1], [2], [9]] (numState []) 1 [2]
      ⟨[.other "cosmos-sdk/MsgSend" []], ""⟩ rfl rfl
      (by
        intro k r hk hr
        have hk0 : k = 0 := by omega
        subst hk0
        simp at hr
        subst hr
        rfl)
      rfl).2 (.other "cosmos-sdk/MsgSend" []) rfl (by intro body h; cases h)⟩

/-- C8, as the code has it: when the document decodes, the transactions before index `i`
are well-formed and transaction `i` fails to decode with error `err`,
`CyberdAppGenState` returns `err` itself, the codec's error for that transaction, with
nothing added to it. -/
theorem CyberdAppGenState_decode_failure {M : ModuleTypes} (cdc : Codec M) (genDoc : GenesisDoc)
    (appGenTxs : List RawMessage) (gs0 : GenesisState M) (i : Nat) (raw : RawMessage)
    (tx : StdTx) (err : Error)
    (hdoc : cdc.UnmarshalGenesisState genDoc.AppState = (gs0, none))
    (hi : appGenTxs[i]? = some raw)
    (hpre : ∀ k r, k < i → appGenTxs[k]? = some r → isWellFormedGenTx cdc r = true)
    (hdec : cdc.UnmarshalStdTx raw = (tx, some err)) :
    CyberdAppGenState cdc genDoc appGenTxs = (gs0, some err) := by
  apply CyberdAppGenState.reaches_index cdc genDoc appGenTxs gs0 i raw hdoc hi hpre
  rw [CyberdAppGenState.loop, hdec]

/-- C8 as amended, at the sample codec: a batch whose transaction 1 fails to decode. -/
theorem CyberdAppGenState_decode_failure_witness :
    CyberdAppGenState numCodec sampleDoc [[1], [9], [2]] =
      (numState [], some ⟨"unexpected end of JSON input"⟩) :=
  CyberdAppGenState_decode_failure numCodec sampleDoc [[1], [9], [2]] (numState []) 1 [9]
    ⟨[], ""⟩ ⟨"unexpected end of JSON input"⟩ rfl rfl
    (by
      intro k r hk hr
      have hk0 : k = 0 := by omega
      subst hk0
      simp at hr
      subst hr
      rfl)
    rfl

/-- C8 as stated fails: with the sample codec, a batch of a single malformed transaction
yields the codec's error, whose message does not contain the index 0; and the same
malformed transaction at index 1 yields the very same error, which does not contain the
index 1 either. -/
theorem CyberdAppGenState_decode_failure_untagged :
    (CyberdAppGenState numCodec sampleDoc [[9]]).2 = some ⟨"unexpected end of JSON input"⟩ ∧
      ¬ Mentions "unexpected end of JSON input" (toString (0 : Nat)) ∧
      (CyberdAppGenState numCodec sampleDoc [[1], [9]]).2 =
        some ⟨"unexpected end of JSON input"⟩ ∧
      ¬ Mentions "unexpected end of JSON input" (toString (1 : Nat)) := by
  refine ⟨rfl, by decide, rfl, by decide⟩

/-! ## Validation pass -/

/-- The first failure of a list of check results: the entry at `k` when it is an error
and every earlier entry is a success. -/
theorem findSome_id_first {α : Type} :
    ∀ (l : List (Option α)) (k : Nat) (e : α),
      l[k]? = some (some e) → (∀ i, i < k → l[i]? = some none) →
      l.findSome? id = some e := by
  intro l
  induction l with
  | nil => intro k e h _; simp at h
  | cons c l ih =>
    intro k e h hbefore
    cases k with
    | zero =>
      simp only [List.getElem?_cons_zero, Option.some.injEq] at h
      subst h
      simp [List.findSome?]
    | succ k =>
      have h0 := hbefore 0 (Nat.succ_pos k)
      simp only [List.getElem?_cons_zero, Option.some.injEq] at h0
      subst h0
      simp only [List.getElem?_cons_succ] at h
      have hrest : ∀ i, i < k → l[i]? = some none := by
        intro i hi
        have := hbefore (i + 1) (Nat.succ_lt_succ hi)
        simpa using this
      simpa [List.findSome?] using ih k e h hrest

/-- The function `validateGenesisState` returns the first error among its ten checks
taken once each in order. -/
theorem validateGenesisState_eq_findSome {M : ModuleTypes} (V : ModuleValidators M)
    (genesisState : GenesisState M) :
    validateGenesisState V genesisState = (validationChecks V genesisState).findSome? id := by
  unfold validateGenesisState validationChecks
  generalize validateGenesisStateAccounts V.addrString genesisState.Accounts = c0
  generalize V.staking genesisState.StakingData = c1
  generalize V.mint genesisState.MintData = c2
  generalize V.distr genesisState.DistrData = c3
  generalize V.gov genesisState.GovData = c4
  generalize V.bank genesisState.BankData = c5
  generalize V.supply genesisState.SupplyData = c6
  generalize V.bandwidth genesisState.BandwidthData = c7
  generalize V.rank genesisState.RankData = c8
  generalize V.wasm genesisState.Wasm = c9
  cases c0 <;> try rfl
  cases c1 <;> try rfl
  cases c2 <;> try rfl
  cases c3 <;> try rfl
  cases c4 <;> try rfl
  cases c5 <;> try rfl
  cases c6 <;> try rfl
  cases c7 <;> try rfl
  cases c8 <;> try rfl
  cases c9 <;> rfl

/-- C9: for arbitrary module validators, `validateGenesisState` returns the error of the
first failing check in the order duplicate addresses, staking, minting, distribution,
governance, balances, supply, bandwidth, ranking, contract layer: when check `k` returns
the error `e` and every earlier check passes, the result is `e` itself; when every check
passes, the result is no error. -/
theorem validateGenesisState_first_failure {M : ModuleTypes} (V : ModuleValidators M)
    (genesisState : GenesisState M) :
    (∀ (k : Nat) (e : Error),
      (validationChecks V genesisState)[k]? = some (some e) →
      (∀ i, i < k → (validationChecks V genesisState)[i]? = some none) →
      validateGenesisState V genesisState = some e) ∧
    ((∀ c ∈ validationChecks V genesisState, c = none) →
      validateGenesisState V genesisState = none) := by
  rw [validateGenesisState_eq_findSome]
  refine ⟨fun k e h hbefore => findSome_id_first _ k e h hbefore, fun hall => ?_⟩
  rw [List.findSome?_eq_none_iff]
  intro c hc
  exact hall c hc

/-- C9 at the sample validators: with invalid minting and supply sub-states the result
is the minting validator's error (check 2), and with every sub-state valid there is no
error. -/
theorem validateGenesisState_first_failure_witness :
    validateGenesisState numValidators
        { numState [plainAccount [1], plainAccount [2]] with
          MintData := (1 : Nat), SupplyData := (1 : Nat) } =
      numValidate "mint" 1 ∧
    numValidate "mint" 1 = some ⟨"mint: invalid genesis state"⟩ ∧
    validateGenesisState numValidators (numState [plainAccount [1], plainAccount [2]]) = none :=
  ⟨(validateGenesisState_first_failure numValidators
      { numState [plainAccount [1], plainAccount [2]] with
        MintData := (1 : Nat), SupplyData := (1 : Nat) }).1 2
      ⟨"mint" ++ ": invalid genesis state"⟩ rfl
      (by
        intro i hi
        have hi2 : i = 0 ∨ i = 1 := by omega
        rcases hi2 with rfl | rfl <;> rfl),
    by decide,
    (validateGenesisState_first_failure numValidators
      (numState [plainAccount [1], plainAccount [2]])).2 (by decide)⟩

/-! ## Assembly followed by validation -/

/-- With the document decoded and every transaction of a non-empty batch well-formed,
`CyberdAppGenState` returns the decoded container with the batch attached. -/
theorem CyberdAppGenState.eq_of_wellFormed {M : ModuleTypes} (cdc : Codec M)
    (genDoc : GenesisDoc) (appGenTxs : List RawMessage) (gs0 : GenesisState M)
    (hdoc : cdc.UnmarshalGenesisState genDoc.AppState = (gs0, none))
    (hne : appGenTxs ≠ [])
    (hall : ∀ raw ∈ appGenTxs, isWellFormedGenTx cdc raw = true) :
    CyberdAppGenState cdc genDoc appGenTxs = ({ gs0 with GenTxs := appGenTxs }, none) := by
  have hlen : appGenTxs.length ≠ 0 := fun h => hne (List.length_eq_zero.1 h)
  have hrun : CyberdAppGenState.loop cdc 0 appGenTxs = none := by
    have h := CyberdAppGenState.loop_skip cdc [] appGenTxs 0 hall
    rw [List.append_nil] at h
    rw [h, CyberdAppGenState.loop]
  unfold CyberdAppGenState
  rw [hdoc]
  simp only [hlen, if_false, hrun]

/-- C11: when the decoded container has pairwise-distinct account addresses (an empty
account list included), each of its nine validated sub-states is accepted by its module
validator, and the batch is non-empty and made of well-formed transactions,
`CyberdAppGenState` returns no error and `validateGenesisState` on the returned container
returns no error. -/
theorem CyberdAppGenState_then_validate {M : ModuleTypes} (cdc : Codec M)
    (V : ModuleValidators M) (genDoc : GenesisDoc) (appGenTxs : List RawMessage)
    (gs0 : GenesisState M)
    (hdoc : cdc.UnmarshalGenesisState genDoc.AppState = (gs0, none))
    (hne : appGenTxs ≠ [])
    (hall : ∀ raw ∈ appGenTxs, isWellFormedGenTx cdc raw = true)
    (hdistinct : gs0.Accounts.Pairwise (fun a b => a.Address ≠ b.Address))
    (hstaking : V.staking gs0.StakingData = none)
    (hmint : V.mint gs0.MintData = none)
    (hdistr : V.distr gs0.DistrData = none)
    (hgov : V.gov gs0.GovData = none)
    (hbank : V.bank gs0.BankData = none)
    (hsupply : V.supply gs0.SupplyData = none)
    (hbandwidth : V.bandwidth gs0.BandwidthData = none)
    (hrank : V.rank gs0.RankData = none)
    (hwasm : V.wasm gs0.Wasm = none) :
    (CyberdAppGenState cdc genDoc appGenTxs).2 = none ∧
      validateGenesisState V (CyberdAppGenState cdc genDoc appGenTxs).1 = none := by
  rw [CyberdAppGenState.eq_of_wellFormed cdc genDoc appGenTxs gs0 hdoc hne hall]
  refine ⟨rfl, ?_⟩
  have hdup : validateGenesisStateAccounts V.addrString gs0.Accounts = none := by
    unfold validateGenesisStateAccounts
    rw [validateGenesisStateAccounts.loop_eq_none_iff]
    exact ⟨fun a _ hm => (List.not_mem_nil _ hm).elim, hdistinct⟩
  simp only [validateGenesisState, hdup, hstaking, hmint, hdistr, hgov, hbank, hsupply,
    hbandwidth, hrank, hwasm]

/-- C11 at the sample codec and validators: a document whose container has no accounts
and a batch of one well-formed transaction. -/
theorem CyberdAppGenState_then_validate_witness :
    (CyberdAppGenState numCodec sampleDoc [[1]]).2 = none ∧
      validateGenesisState numValidators (CyberdAppGenState numCodec sampleDoc [[1]]).1 = none :=
  CyberdAppGenState_then_validate numCodec numValidators sampleDoc [[1]] (numState []) rfl
    (by decide) (by decide) List.Pairwise.nil rfl rfl rfl rfl rfl rfl rfl rfl rfl

/-! ## Account normalisation: balances, receiver and base account -/

/-- Whatever account `ToAccount` returns, the base account inside it is the one built
from the descriptor's address, sorted balances, account number and sequence, without a
public key. -/
theorem ToAccount_baseAccount (ga : GenesisAccount) (acc : Account)
    (h : ga.ToAccount.2 = some acc) :
    acc.baseAccount =
      { Address := ga.Address, Coins := ga.Coins.Sort, PubKey := none,
        AccountNumber := ga.AccountNumber, Sequence := ga.Sequence } := by
  unfold GenesisAccount.ToAccount at h
  by_cases hov : ga.OriginalVesting.IsZero = false
  · by_cases hend : ga.EndTime = 0
    · simp [hov, hend] at h
    · by_cases hstart : ga.StartTime = 0
      · simp [hov, hend, hstart] at h
        subst h
        rfl
      · simp [hov, hend, hstart] at h
        subst h
        rfl
  · simp only [Bool.not_eq_false] at hov
    by_cases hname : ga.ModuleName = ""
    · simp [hov, hname] at h
      subst h
      rfl
    · simp only [hov, Bool.not_true, Bool.false_eq_true, if_false, ne_eq, hname,
        not_false_eq_true, if_true] at h
      rw [NewModuleAccount_eq_some _ _ _ acc h]
      rfl

/-- The descriptor behind the receiver after `ToAccount` is the descriptor with its
balance list sorted. -/
theorem ToAccount_fst (ga : GenesisAccount) :
    ga.ToAccount.1 = { ga with Coins := ga.Coins.Sort } := by
  unfold GenesisAccount.ToAccount
  simp only
  split_ifs <;> rfl

/-- The balances returned by `Coins.Sort` are the given ones, rearranged. -/
theorem Coins.Sort_perm (coins : Coins) : (Coins.Sort coins).Perm coins :=
  List.perm_insertionSort _ coins

/-- The balances returned by `Coins.Sort` are in non-decreasing denomination order. -/
theorem Coins.Sort_sorted (coins : Coins) :
    (Coins.Sort coins).Sorted (fun a b => a.Denom ≤ b.Denom) := by
  haveI : IsTotal Coin (fun a b => a.Denom ≤ b.Denom) := ⟨fun a b => le_total a.Denom b.Denom⟩
  haveI : IsTrans Coin (fun a b => a.Denom ≤ b.Denom) :=
    ⟨fun _ _ _ hab hbc => le_trans hab hbc⟩
  exact List.sorted_insertionSort _ coins

/-- The sample descriptor with unsorted balances yields the plain account with the
balances sorted. -/
theorem unsortedSample_ToAccount :
    unsortedSample.ToAccount.2 = some (.base
      { Address := [5], Coins := [⟨"boot", 3⟩, ⟨"cyb", 5⟩], PubKey := none,
        AccountNumber := 2, Sequence := 1 }) := by
  simp [GenesisAccount.ToAccount, unsortedSample, Coins.IsZero, NewBaseAccount, Coins.Sort,
    List.insertionSort, List.orderedInsert]
  decide

/-- C12: whenever `ToAccount` returns an account, the balance set of the base account
inside it is a permutation of the descriptor's balance set and is in non-decreasing
denomination order. -/
theorem ToAccount_coins_sorted (ga : GenesisAccount) (acc : Account)
    (h : ga.ToAccount.2 = some acc) :
    acc.baseAccount.Coins.Perm ga.Coins ∧
      acc.baseAccount.Coins.Sorted (fun a b => a.Denom ≤ b.Denom) := by
  rw [ToAccount_baseAccount ga acc h]
  exact ⟨Coins.Sort_perm ga.Coins, Coins.Sort_sorted ga.Coins⟩

/-- C12 at the descriptor with balances cyb, boot: the returned balances boot, cyb are a
permutation of them in denomination order. -/
theorem ToAccount_coins_sorted_witness :
    List.Perm [(⟨"boot", 3⟩ : Coin), ⟨"cyb", 5⟩] [⟨"cyb", 5⟩, ⟨"boot", 3⟩] ∧
      List.Sorted (fun a b : Coin => a.Denom ≤ b.Denom) [⟨"boot", 3⟩, ⟨"cyb", 5⟩] :=
  ToAccount_coins_sorted unsortedSample _ unsortedSample_ToAccount

/-- C13, as the code has it: whenever `ToAccount` returns, the descriptor behind the
receiver keeps every field except the balance list, which holds the same coins sorted
into denomination order; when the balance list was already in that order the descriptor
is unchanged. -/
theorem ToAccount_receiver (ga : GenesisAccount) (acc : Account)
    (h : ga.ToAccount.2 = some acc) :
    ga.ToAccount.1 = { ga with Coins := ga.Coins.Sort } ∧
      ga.ToAccount.1.Coins.Perm ga.Coins ∧
      ga.ToAccount.1.Coins.Sorted (fun a b => a.Denom ≤ b.Denom) ∧
      (ga.ToAccount.1.Address = ga.Address ∧
        ga.ToAccount.1.Sequence = ga.Sequence ∧
        ga.ToAccount.1.AccountNumber = ga.AccountNumber ∧
        ga.ToAccount.1.OriginalVesting = ga.OriginalVesting ∧
        ga.ToAccount.1.DelegatedFree = ga.DelegatedFree ∧
        ga.ToAccount.1.DelegatedVesting = ga.DelegatedVesting ∧
        ga.ToAccount.1.StartTime = ga.StartTime ∧
        ga.ToAccount.1.EndTime = ga.EndTime ∧
        ga.ToAccount.1.ModuleName = ga.ModuleName ∧
        ga.ToAccount.1.ModulePermissions = ga.ModulePermissions) ∧
      (ga.Coins.Sorted (fun a b => a.Denom ≤ b.Denom) → ga.ToAccount.1 = ga) := by
  have _ := h
  rw [ToAccount_fst]
  refine ⟨rfl, Coins.Sort_perm ga.Coins, Coins.Sort_sorted ga.Coins,
    ⟨rfl, rfl, rfl, rfl, rfl, rfl, rfl, rfl, rfl, rfl⟩, fun hs => ?_⟩
  have hid : Coins.Sort ga.Coins = ga.Coins := List.Sorted.insertionSort_eq hs
  rw [hid]

/-- C13 as amended, at the descriptor with balances cyb, boot. -/
theorem ToAccount_receiver_witness :
    unsortedSample.ToAccount.1 = { unsortedSample with Coins := unsortedSample.Coins.Sort } ∧
      unsortedSample.ToAccount.1.Coins.Perm unsortedSample.Coins :=
  ⟨(ToAccount_receiver unsortedSample _ unsortedSample_ToAccount).1,
    (ToAccount_receiver unsortedSample _ unsortedSample_ToAccount).2.1⟩

/-- C13 as stated fails: on the descriptor with balances cyb, boot the call returns an
account, and afterwards the descriptor's balance list is boot, cyb, so the descriptor is
not the same as before the call. -/
theorem ToAccount_reorders_receiver_coins :
    (∃ acc, unsortedSample.ToAccount.2 = some acc) ∧
      unsortedSample.Coins = [⟨"cyb", 5⟩, ⟨"boot", 3⟩] ∧
      unsortedSample.ToAccount.1.Coins = [⟨"boot", 3⟩, ⟨"cyb", 5⟩] ∧
      unsortedSample.ToAccount.1 ≠ unsortedSample := by
  have hcoins : unsortedSample.ToAccount.1.Coins = [⟨"boot", 3⟩, ⟨"cyb", 5⟩] := by
    rw [ToAccount_fst]
    simp [unsortedSample, Coins.Sort, List.insertionSort, List.orderedInsert]
    decide
  refine ⟨⟨_, unsortedSample_ToAccount⟩, rfl, hcoins, fun heq => ?_⟩
  rw [heq] at hcoins
  exact absurd hcoins (by decide)

/-- C18: for a descriptor whose original-vesting set is non-zero, `ToAccount` panics or
returns a continuous or delayed vesting account, never a module account or a plain base
account, and its result is the same whatever the descriptor's module name and
permissions are. -/
theorem ToAccount_vesting_ignores_module (ga : GenesisAccount)
    (hov : ga.OriginalVesting.IsZero = false) :
    (ga.ToAccount.2 = none ∨ (∃ a, ga.ToAccount.2 = some (.continuousVesting a)) ∨
        ∃ a, ga.ToAccount.2 = some (.delayedVesting a)) ∧
      (∀ a, ga.ToAccount.2 ≠ some (.module a)) ∧
      (∀ a, ga.ToAccount.2 ≠ some (.base a)) ∧
      (∀ (name : String) (perms : List String),
        ({ ga with ModuleName := name, ModulePermissions := perms } :
          GenesisAccount).ToAccount.2 = ga.ToAccount.2) := by
  have hshape : ga.ToAccount.2 = none ∨ (∃ a, ga.ToAccount.2 = some (.continuousVesting a)) ∨
      ∃ a, ga.ToAccount.2 = some (.delayedVesting a) := by
    unfold GenesisAccount.ToAccount
    by_cases hend : ga.EndTime = 0
    · left; simp [hov, hend]
    · by_cases hstart : ga.StartTime = 0
      · right; right
        simp [hov, hend, hstart, NewDelayedVestingAccountRaw]
      · right; left
        simp [hov, hend, hstart, NewContinuousVestingAccountRaw]
  refine ⟨hshape, ?_, ?_, ?_⟩
  · intro a ha
    rcases hshape with h | ⟨b, h⟩ | ⟨b, h⟩ <;> rw [h] at ha <;> cases ha
  · intro a ha
    rcases hshape with h | ⟨b, h⟩ | ⟨b, h⟩ <;> rw [h] at ha <;> cases ha
  · intro name perms
    unfold GenesisAccount.ToAccount
    simp only [hov, Bool.not_false, if_true]
    split_ifs <;> rfl

/-- C18 at a vesting descriptor that also carries a module name and permissions: the
result is the delayed vesting account of the same descriptor without them. -/
theorem ToAccount_vesting_ignores_module_witness :
    ({ vestingSample 0 with ModuleName := "mint", ModulePermissions := ["minter"] } :
        GenesisAccount).ToAccount.2 = (vestingSample 0).ToAccount.2 ∧
      ∀ a, ({ vestingSample 0 with ModuleName := "mint", ModulePermissions := ["minter"] } :
        GenesisAccount).ToAccount.2 ≠ some (.module a) :=
  ⟨(ToAccount_vesting_ignores_module (vestingSample 0) (by decide)).2.2.2 "mint" ["minter"],
    (ToAccount_vesting_ignores_module
      { vestingSample 0 with ModuleName := "mint", ModulePermissions := ["minter"] }
      (by decide)).2.1⟩

/-- C20: whenever `ToAccount` returns an account, of whichever shape, the base account
inside it carries the descriptor's address, the descriptor's account number as account
number, the descriptor's sequence number as sequence, and no public key. -/
theorem ToAccount_base_fields (ga : GenesisAccount) (acc : Account)
    (h : ga.ToAccount.2 = some acc) :
    acc.baseAccount.Address = ga.Address ∧
      acc.baseAccount.AccountNumber = ga.AccountNumber ∧
      acc.baseAccount.Sequence = ga.Sequence ∧
      acc.baseAccount.PubKey = none := by
  rw [ToAccount_baseAccount ga acc h]
  exact ⟨rfl, rfl, rfl, rfl⟩

/-- C20 at the three shapes: the vesting sample (account number 9, sequence 3), the
module sample and the plain sample (account number 2, sequence 1). -/
theorem ToAccount_base_fields_witness :
    (∃ acc, (vestingSample 1000).ToAccount.2 = some acc ∧
        acc.baseAccount.Address = [7, 7] ∧ acc.baseAccount.AccountNumber = 9 ∧
        acc.baseAccount.Sequence = 3 ∧ acc.baseAccount.PubKey = none) ∧
      (∃ acc, (moduleSample "mint").ToAccount.2 = some acc ∧
        acc.baseAccount.Address = [4] ∧ acc.baseAccount.AccountNumber = 2 ∧
        acc.baseAccount.Sequence = 1 ∧ acc.baseAccount.PubKey = none) ∧
      (∃ acc, (moduleSample "").ToAccount.2 = some acc ∧
        acc.baseAccount.Address = [4] ∧ acc.baseAccount.AccountNumber = 2 ∧
        acc.baseAccount.Sequence = 1 ∧ acc.baseAccount.PubKey = none) :=
  ⟨⟨_, rfl, ToAccount_base_fields (vestingSample 1000) _ rfl⟩,
    ⟨_, rfl, ToAccount_base_fields (moduleSample "mint") _ rfl⟩,
    ⟨_, rfl, ToAccount_base_fields (moduleSample "") _ rfl⟩⟩

/-! ## The default state -/

/-- C14: `NewDefaultGenesisState` returns a container with no accounts and no
transactions, initial inflation 3/100 between the minimum 1/100 and the maximum 15/100,
bonded-ratio goal 88/100, at most 7 validators, an unbonding time of 1814400 seconds
(three weeks), a governance voting period and a maximum deposit period of 7200 seconds
(two hours) each, and a community tax of 10/100. -/
theorem NewDefaultGenesisState_constants (X : DefaultExternals) :
    (NewDefaultGenesisState X).Accounts = [] ∧
      (NewDefaultGenesisState X).GenTxs = [] ∧
      (NewDefaultGenesisState X).MintData.Minter.Inflation = 3 / 100 ∧
      (NewDefaultGenesisState X).MintData.Params.InflationMin = 1 / 100 ∧
      (NewDefaultGenesisState X).MintData.Params.InflationMax = 15 / 100 ∧
      (NewDefaultGenesisState X).MintData.Params.InflationMin ≤
        (NewDefaultGenesisState X).MintData.Minter.Inflation ∧
      (NewDefaultGenesisState X).MintData.Minter.Inflation ≤
        (NewDefaultGenesisState X).MintData.Params.InflationMax ∧
      (NewDefaultGenesisState X).MintData.Params.GoalBonded = 88 / 100 ∧
      (NewDefaultGenesisState X).StakingData.Params.MaxValidators = 7 ∧
      (NewDefaultGenesisState X).StakingData.Params.UnbondingTime = 1814400 * Second ∧
      (1814400 : Int) = 60 * 60 * 24 * 3 * 7 ∧
      (NewDefaultGenesisState X).GovData.VotingParams.VotingPeriod = 7200 * Second ∧
      (NewDefaultGenesisState X).GovData.DepositParams.MaxDepositPeriod = 7200 * Second ∧
      (7200 : Int) = 2 * 60 * 60 ∧
      (NewDefaultGenesisState X).DistrData.CommunityTax = 10 / 100 := by
  refine ⟨rfl, rfl, ?_, ?_, ?_, ?_, ?_, ?_, rfl, ?_, by norm_num, rfl, rfl, by norm_num, ?_⟩
  · show NewDecWithPrec 3 2 = 3 / 100
    unfold NewDecWithPrec; norm_num
  · show NewDecWithPrec 1 2 = 1 / 100
    unfold NewDecWithPrec; norm_num
  · show NewDecWithPrec 15 2 = 15 / 100
    unfold NewDecWithPrec; norm_num
  · show NewDecWithPrec 1 2 ≤ NewDecWithPrec 3 2
    unfold NewDecWithPrec; norm_num
  · show NewDecWithPrec 3 2 ≤ NewDecWithPrec 15 2
    unfold NewDecWithPrec; norm_num
  · show NewDecWithPrec 88 2 = 88 / 100
    unfold NewDecWithPrec; norm_num
  · show defaultUnbondingTime = 1814400 * Second
    unfold defaultUnbondingTime; norm_num
  · show NewDecWithPrec 10 2 = 10 / 100
    unfold NewDecWithPrec; norm_num

/-- C14 at the sample externals: the unbonding time in nanoseconds and the size of the
account and transaction lists. -/
theorem NewDefaultGenesisState_constants_witness :
    (NewDefaultGenesisState sampleExternals).Accounts.length = 0 ∧
      (NewDefaultGenesisState sampleExternals).GenTxs.length = 0 ∧
      (NewDefaultGenesisState sampleExternals).StakingData.Params.UnbondingTime =
        1814400000000000 :=
  ⟨congrArg List.length (NewDefaultGenesisState_constants sampleExternals).1,
    congrArg List.length (NewDefaultGenesisState_constants sampleExternals).2.1,
    (NewDefaultGenesisState_constants sampleExternals).2.2.2.2.2.2.2.2.2.1.trans (by decide)⟩

/-! ## Assembly: what the errors name, and their order -/

/-- C15, as the code has it: when the document decodes, the transactions before index
`i` are well-formed and transaction `i` decodes, a single message that is not a
create-validator message gives an error whose message contains the index `i`, while a
number of messages other than one gives the fixed error "must provide genesis StdTx
with exactly 1 CreateValidator message", the same text for every index. -/
theorem CyberdAppGenState_error_names_index {M : ModuleTypes} (cdc : Codec M)
    (genDoc : GenesisDoc) (appGenTxs : List RawMessage) (gs0 : GenesisState M) (i : Nat)
    (raw : RawMessage) (tx : StdTx)
    (hdoc : cdc.UnmarshalGenesisState genDoc.AppState = (gs0, none))
    (hi : appGenTxs[i]? = some raw)
    (hpre : ∀ k r, k < i → appGenTxs[k]? = some r → isWellFormedGenTx cdc r = true)
    (hdec : cdc.UnmarshalStdTx raw = (tx, none)) :
    (∀ m, tx.GetMsgs = [m] → (∀ body, m ≠ Msg.MsgCreateValidator body) →
      ∃ e, (CyberdAppGenState cdc genDoc appGenTxs).2 = some e ∧
        Mentions e.msg (toString i)) ∧
    (tx.GetMsgs.length ≠ 1 →
      (CyberdAppGenState cdc genDoc appGenTxs).2 =
        some ⟨"must provide genesis StdTx with exactly 1 CreateValidator message"⟩) := by
  constructor
  · intro m hm hkind
    have hres : CyberdAppGenState cdc genDoc appGenTxs =
        (gs0, some (fmtErrorf
          ("genesis transaction " ++ toString i ++
            " does not contain a MsgCreateValidator"))) := by
      apply CyberdAppGenState.reaches_index cdc genDoc appGenTxs gs0 i raw hdoc hi hpre
      rw [CyberdAppGenState.loop, hdec]
      cases m with
      | MsgCreateValidator body => exact absurd rfl (hkind body)
      | other typ body => simp [hm]
    rw [hres]
    exact ⟨_, rfl, mentions_append_middle _ _ _⟩
  · intro hcount
    have hres : CyberdAppGenState cdc genDoc appGenTxs =
        (gs0, some (errorsNew
          "must provide genesis StdTx with exactly 1 CreateValidator message")) := by
      apply CyberdAppGenState.reaches_index cdc genDoc appGenTxs gs0 i raw hdoc hi hpre
      rw [CyberdAppGenState.loop, hdec]
      simp [hcount]
    rw [hres]
    rfl

/-- C15 as amended, at the sample codec: transaction 0 carrying two messages gives the
fixed error, transaction 0 carrying one message of another type gives an error that
contains the index. -/
theorem CyberdAppGenState_error_names_index_witness :
    (CyberdAppGenState numCodec sampleDoc [[3]]).2 =
        some ⟨"must provide genesis StdTx with exactly 1 CreateValidator message"⟩ ∧
      ∃ e, (CyberdAppGenState numCodec sampleDoc [[2]]).2 = some e ∧
        Mentions e.msg (toString (0 : Nat)) :=
  ⟨(CyberdAppGenState_error_names_index numCodec sampleDoc [[3]] (numState []) 0 [3]
      ⟨[.MsgCreateValidator [], .MsgCreateValidator []], ""⟩ rfl rfl
      (by intro k r hk; omega) rfl).2 (by decide),
    (CyberdAppGenState_error_names_index numCodec sampleDoc [[2]] (numState []) 0 [2]
      ⟨[.other "cosmos-sdk/MsgSend" []], ""⟩ rfl rfl
      (by intro k r hk; omega) rfl).1 (.other "cosmos-sdk/MsgSend" []) rfl
      (by intro body h; cases h)⟩

/-- C15 as stated fails: a batch whose transaction 0 decodes and carries two messages
yields the error "must provide genesis StdTx with exactly 1 CreateValidator message",
which does not contain the index 0; the same transaction at index 2 yields the same
error, which does not contain the index 2. -/
theorem CyberdAppGenState_count_error_unindexed :
    (CyberdAppGenState numCodec sampleDoc [[3]]).2 =
        some ⟨"must provide genesis StdTx with exactly 1 CreateValidator message"⟩ ∧
      ¬ Mentions "must provide genesis StdTx with exactly 1 CreateValidator message"
        (toString (0 : Nat)) ∧
      (CyberdAppGenState numCodec sampleDoc [[1], [1], [3]]).2 =
        some ⟨"must provide genesis StdTx with exactly 1 CreateValidator message"⟩ ∧
      ¬ Mentions "must provide genesis StdTx with exactly 1 CreateValidator message"
        (toString (2 : Nat)) := by
  refine ⟨rfl, by decide, rfl, by decide⟩

/-- C17: `CyberdAppGenState` reports the first failing step. A document that fails to
decode gives the document's decode error for every batch, the empty one included; a
decoded document with an empty batch gives the empty-batch error; otherwise, with the
transactions before index `i` well-formed, transaction `i` decides the error whatever
follows it: its decode error if it fails to decode, else the message-count error if it
does not carry exactly one message, else the message-kind error if that message is not
a create-validator message. -/
theorem CyberdAppGenState_first_failing_step {M : ModuleTypes} (cdc : Codec M)
    (genDoc : GenesisDoc) :
    (∀ (appGenTxs : List RawMessage) (gs : GenesisState M) (err : Error),
      cdc.UnmarshalGenesisState genDoc.AppState = (gs, some err) →
      CyberdAppGenState cdc genDoc appGenTxs = (gs, some err)) ∧
    (∀ gs0 : GenesisState M, cdc.UnmarshalGenesisState genDoc.AppState = (gs0, none) →
      CyberdAppGenState cdc genDoc [] =
          (gs0, some (errorsNew "there must be at least one genesis tx")) ∧
      ∀ (appGenTxs : List RawMessage) (i : Nat) (raw : RawMessage) (tx : StdTx),
        appGenTxs[i]? = some raw →
        (∀ k r, k < i → appGenTxs[k]? = some r → isWellFormedGenTx cdc r = true) →
        (∀ err, cdc.UnmarshalStdTx raw = (tx, some err) →
          CyberdAppGenState cdc genDoc appGenTxs = (gs0, some err)) ∧
        (cdc.UnmarshalStdTx raw = (tx, none) → tx.GetMsgs.length ≠ 1 →
          CyberdAppGenState cdc genDoc appGenTxs =
            (gs0, some (errorsNew
              "must provide genesis StdTx with exactly 1 CreateValidator message"))) ∧
        (cdc.UnmarshalStdTx raw = (tx, none) → ∀ m, tx.GetMsgs = [m] →
          (∀ body, m ≠ Msg.MsgCreateValidator body) →
          CyberdAppGenState cdc genDoc appGenTxs =
            (gs0, some (fmtErrorf
              ("genesis transaction " ++ toString i ++
                " does not contain a MsgCreateValidator"))))) := by
  constructor
  · intro appGenTxs gs err hdoc
    unfold CyberdAppGenState
    rw [hdoc]
  · intro gs0 hdoc
    constructor
    · unfold CyberdAppGenState
      rw [hdoc]
      simp
    · intro appGenTxs i raw tx hi hpre
      refine ⟨?_, ?_, ?_⟩
      · intro err hdec
        apply CyberdAppGenState.reaches_index cdc genDoc appGenTxs gs0 i raw hdoc hi hpre
        rw [CyberdAppGenState.loop, hdec]
      · intro hdec hcount
        apply CyberdAppGenState.reaches_index cdc genDoc appGenTxs gs0 i raw hdoc hi hpre
        rw [CyberdAppGenState.loop, hdec]
        simp [hcount]
      · intro hdec m hm hkind
        apply CyberdAppGenState.reaches_index cdc genDoc appGenTxs gs0 i raw hdoc hi hpre
        rw [CyberdAppGenState.loop, hdec]
        cases m with
        | MsgCreateValidator body => exact absurd rfl (hkind body)
        | other typ body => simp [hm]

/-- C17 at the sample codec: an undecodable document with an empty batch gives the
document's decode error, and a batch whose transactions 1, 2 and 3 are all bad gives
the error of transaction 1. -/
theorem CyberdAppGenState_first_failing_step_witness :
    CyberdAppGenState numCodec { ChainID := "euler", AppState := [] } [] =
        (numState [], some ⟨"unexpected end of JSON input"⟩) ∧
      CyberdAppGenState numCodec sampleDoc [[1], [2], [9], [3]] =
        (numState [],
          some ⟨"genesis transaction 1 does not contain a MsgCreateValidator"⟩) :=
  ⟨(CyberdAppGenState_first_failing_step numCodec { ChainID := "euler", AppState := [] }).1
      [] (numState []) ⟨"unexpected end of JSON input"⟩ rfl,
    ((((CyberdAppGenState_first_failing_step numCodec sampleDoc).2 (numState []) rfl).2
      [[1], [2], [9], [3]] 1 [2] ⟨[.other "cosmos-sdk/MsgSend" []], ""⟩ rfl
      (by
        intro k r hk hr
        have hk0 : k = 0 := by omega
        subst hk0
        simp at hr
        subst hr
        rfl)).2.2) rfl (.other "cosmos-sdk/MsgSend" []) rfl (by intro body h; cases h)⟩

/-! ## Validation pass: the repeated calls and the fields that are not read -/

/-- C16: for arbitrary module validators and every container, `validateGenesisState`
returns what the simplified validator returns (the duplicate-address check and then
each of the nine module validators once, in order): the same success, the same error. -/
theorem validateGenesisState_eq_simplified {M : ModuleTypes} (V : ModuleValidators M)
    (genesisState : GenesisState M) :
    validateGenesisState V genesisState = validateGenesisStateSimplified V genesisState := by
  unfold validateGenesisState validateGenesisStateSimplified
  generalize validateGenesisStateAccounts V.addrString genesisState.Accounts = c0
  generalize V.staking genesisState.StakingData = c1
  generalize V.mint genesisState.MintData = c2
  generalize V.distr genesisState.DistrData = c3
  generalize V.gov genesisState.GovData = c4
  generalize V.bank genesisState.BankData = c5
  generalize V.supply genesisState.SupplyData = c6
  generalize V.bandwidth genesisState.BandwidthData = c7
  generalize V.rank genesisState.RankData = c8
  generalize V.wasm genesisState.Wasm = c9
  cases c0 <;> try rfl
  cases c1 <;> try rfl
  cases c2 <;> try rfl
  cases c3 <;> try rfl
  cases c4 <;> try rfl
  cases c5 <;> try rfl
  cases c6 <;> try rfl
  cases c7 <;> try rfl
  cases c8 <;> try rfl
  cases c9 <;> rfl

/-- C16 at the sample validators, on a container that fails in the contract layer only
and on one that passes: both validators return the same value. -/
theorem validateGenesisState_eq_simplified_witness :
    validateGenesisState numValidators { numState [] with Wasm := (1 : Nat) } =
        validateGenesisStateSimplified numValidators { numState [] with Wasm := (1 : Nat) } ∧
      validateGenesisStateSimplified numValidators { numState [] with Wasm := (1 : Nat) } =
        some ⟨"wasm: invalid genesis state"⟩ ∧
      validateGenesisState numValidators (numState []) =
        validateGenesisStateSimplified numValidators (numState []) :=
  ⟨validateGenesisState_eq_simplified numValidators { numState [] with Wasm := (1 : Nat) },
    by decide,
    validateGenesisState_eq_simplified numValidators (numState [])⟩

/-- C19: two containers that agree on the account list and on the staking, minting,
distribution, governance, balances, supply, bandwidth, ranking and contract-layer
sub-states get the same result from `validateGenesisState`; in particular replacing the
auth, slashing, crisis and staking-pool sub-states and the transaction list of a
container does not change the result. -/
theorem validateGenesisState_ignores_unread_fields {M : ModuleTypes} (V : ModuleValidators M)
    (gs1 gs2 : GenesisState M)
    (hacc : gs1.Accounts = gs2.Accounts)
    (hstaking : gs1.StakingData = gs2.StakingData)
    (hmint : gs1.MintData = gs2.MintData)
    (hdistr : gs1.DistrData = gs2.DistrData)
    (hgov : gs1.GovData = gs2.GovData)
    (hbank : gs1.BankData = gs2.BankData)
    (hsupply : gs1.SupplyData = gs2.SupplyData)
    (hbandwidth : gs1.BandwidthData = gs2.BandwidthData)
    (hrank : gs1.RankData = gs2.RankData)
    (hwasm : gs1.Wasm = gs2.Wasm) :
    validateGenesisState V gs1 = validateGenesisState V gs2 ∧
      ∀ (auth : M.AuthGenesisState) (slashing : M.SlashingGenesisState)
        (crisis : M.CrisisGenesisState) (pool : M.StakingPool) (genTxs : List RawMessage),
        validateGenesisState V
            { gs1 with AuthData := auth, SlashingData := slashing, Crisis := crisis,
                       Pool := pool, GenTxs := genTxs } =
          validateGenesisState V gs2 := by
  have key : validateGenesisState V gs1 = validateGenesisState V gs2 := by
    unfold validateGenesisState
    rw [hacc, hstaking, hmint, hdistr, hgov, hbank, hsupply, hbandwidth, hrank, hwasm]
  refine ⟨key, fun auth slashing crisis pool genTxs => ?_⟩
  rw [← key]
  rfl

/-- C19 at the sample validators: a container whose auth, slashing, crisis and pool
sub-states are all invalid by the samples' convention and whose transaction list is
changed validates like the all-valid container, with no error. -/
theorem validateGenesisState_ignores_unread_fields_witness :
    validateGenesisState numValidators
        { numState [] with AuthData := (1 : Nat), SlashingData := (1 : Nat),
                           Crisis := (1 : Nat), Pool := (1 : Nat), GenTxs := [[2]] } =
      validateGenesisState numValidators (numState []) ∧
    validateGenesisState numValidators (numState []) = none :=
  ⟨(validateGenesisState_ignores_unread_fields numValidators
      { numState [] with AuthData := (1 : Nat), SlashingData := (1 : Nat),
                         Crisis := (1 : Nat), Pool := (1 : Nat), GenTxs := [[2]] }
      (numState []) rfl rfl rfl rfl rfl rfl rfl rfl rfl rfl).1,
    by decide⟩

end Cyberd
